import Mathlib

/-!
# Verification of the reback-js render engine against its specification

This development embeds the core of the `reback-js` component/render engine
(`src/Component.ts`, `src/Context.ts`, `src/util.ts`, and the cache data
structures `Cache` / `HashCache`) shallowly in Lean and settles the claims of
the specification against the embedding.

Modelling conventions:
* JavaScript values are modelled by the inductive `JSVal`.  Machine floats are
  not needed by any claim; numbers are modelled as integers plus a separate
  `nan` constructor (the only `NaN` behaviour the code relies on is
  `NaN !== NaN` together with `Number.isNaN`).  Objects are opaque references
  identified by an allocation id, so JavaScript pointer equality (`===`)
  becomes id equality.
* Mutable structures become explicit state records that every engine function
  threads through.  The global scheduler is modelled by boolean "a timeout is
  pending" flags plus explicit functions for the scheduled callbacks.
* Asynchronous values: the claims settled here exercise only the synchronous
  prepare path, so `doPrepare` hooks in the modelled component classes return
  synchronously (the `SyncPromise` branches of `_doPrepare` that inspect a
  promise are then dead and are omitted); the `_prepare` field is still kept
  because `_doRender` inspects it.
* The bit-packed `flags` field of `RebackInternalData` is modelled as a record
  with one boolean per flag plus a `phase` field (`setPhaseFlags` keeps the
  flag bits and replaces the phase, which the record does by construction).
-/

set_option autoImplicit false

namespace Reback

/-- JavaScript values, as far as the engine inspects them.  `obj i` is an
opaque object reference with allocation id `i`; distinct ids model distinct
heap objects, so `===` on objects is id equality. -/
inductive JSVal where
  | undef
  | jsNull
  | bool (b : Bool)
  | num (n : Int)
  | nan
  | str (s : String)
  | obj (id : Nat)
  deriving DecidableEq, Repr

namespace JSVal

/-- JavaScript strict equality `===`.  Structural except that `NaN === NaN`
is false; objects compare by reference (id). -/
def jsEq : JSVal → JSVal → Bool
  | nan, _ => false
  | _, nan => false
  | a, b => a == b

/-- `Number.isNaN`. -/
def isNaN : JSVal → Bool
  | nan => true
  | _ => false

/-- JavaScript truthiness. -/
def truthy : JSVal → Bool
  | undef => false
  | jsNull => false
  | bool b => b
  | num n => n != 0
  | nan => false
  | str s => s ≠ ""
  | obj _ => true

/-- `typeof`, to the extent `sameShallow` compares it. -/
def typeofTag : JSVal → String
  | undef => "undefined"
  | jsNull => "object"
  | bool _ => "boolean"
  | num _ => "number"
  | nan => "number"
  | str _ => "string"
  | obj _ => "object"

end JSVal

open JSVal

/-- `sameValueZero` from `src/util.ts`:
`a === b || (Number.isNaN(a) && Number.isNaN(b))`. -/
def sameValueZero (a b : JSVal) : Bool :=
  jsEq a b || (isNaN a && isNaN b)

/-- `sameShallow` from `src/util.ts`, instantiated at (primitive-ish) `JSVal`
arguments, as used by the render-argument comparator of the scan cache.
The source first checks `sameValue`, then falsiness, then `typeof`, then
compares own enumerable properties.  Of the `JSVal` constructors, only strings
carry own enumerable properties (their indices); the opaque `obj` references
are modelled as property-less, and numbers/booleans have none, so the two
property loops succeed vacuously for them. -/
def sameShallowVal (a b : JSVal) : Bool :=
  if sameValueZero a b then true
  else if !truthy a || !truthy b then false
  else if typeofTag a != typeofTag b then false
  else
    match a, b with
    | str s, str t => s == t
    | _, _ => true

/-- A modifications object `{name: value, ...}` (unique keys, insertion
order), as produced by `getContextModifications` and consumed by
`Context.change`. -/
abbrev Mods := List (String × JSVal)

/-- Attribute lookup in a modifications object / attribute map: a missing
key reads as `undefined` (`Map.get` returns `undefined`). -/
def modsGet (m : Mods) (k : String) : JSVal :=
  match m.find? (fun p => p.1 == k) with
  | some p => p.2
  | none => JSVal.undef

/-- Does the object have the key (`Map.has` / `hasOwnProperty`). -/
def modsHas (m : Mods) (k : String) : Bool :=
  m.any (fun p => p.1 == k)

/-- `Map.set` semantics: update in place if the key exists, append otherwise
(JavaScript `Map`s preserve insertion order). -/
def modsSet (m : Mods) (k : String) (v : JSVal) : Mods :=
  if modsHas m k then
    m.map (fun p => if p.1 == k then (k, v) else p)
  else
    m ++ [(k, v)]

/-- `sameShallow` from `src/util.ts` instantiated at modification objects, as
used by `applyModificationsCached` (with `sameValue := sameValueZero`, which is
what `Context.sameValue` is).  The leading `sameValue(a, b)` pointer fast-path
of the source returns true only for identical objects, which the two property
loops also accept, so the semantics is: same key set and `sameValue`-equal
values. -/
def sameShallowMods (a b : Mods) : Bool :=
  a.all (fun p => modsHas b p.1 && sameValueZero p.2 (modsGet b p.1)) &&
  b.all (fun p => modsHas a p.1)

/-! ## Context (`src/Context.ts`) -/

/-- A context object: an attribute map plus an allocation id.  Contexts are
immutable; `Context.change` either returns the receiver itself or a freshly
allocated object, so `===` on contexts is id equality provided ids are
allocated freshly (the engine state below guarantees that). -/
structure Ctx where
  id : Nat
  attrs : Mods
  deriving DecidableEq, Repr

/-- `emptyContext` (`src/EmptyContext.ts` is `new Context()`); we reserve
allocation id 0 for it. -/
def emptyCtx : Ctx := { id := 0, attrs := [] }

/-- Whether `Context.change` would modify anything: some modification entry
whose new value is `!==` the existing attribute value. -/
def ctxChangeNeeded (c : Ctx) (mods : Mods) : Bool :=
  mods.any (fun p => !jsEq p.2 (modsGet c.attrs p.1))

/-- `Context.change` from `src/Context.ts`.  Iterates over the modifications;
on the first value that differs (`!==`) from the existing attribute it clones
the attribute map and applies every differing entry; if nothing differed the
very same context object is returned.  `fresh` is the allocation id handed to
the new object when one is made. -/
def ctxChangeFoldStep (c : Ctx) (acc : Option Mods) (p : String × JSVal) : Option Mods :=
  let existing := modsGet c.attrs p.1
  if jsEq p.2 existing then acc
  else some (modsSet (acc.getD c.attrs) p.1 p.2)

def ctxChange (c : Ctx) (mods : Mods) (fresh : Nat) : Ctx :=
  let newAttrs := mods.foldl (ctxChangeFoldStep c) none
  match newAttrs with
  | some attrs => { id := fresh, attrs := attrs }
  | none => c

/-- The per-component modification cache record
`{base?, modifications?, result?}` used by `applyModificationsCached`. -/
structure ModCache where
  base : Option Ctx
  modifications : Option Mods
  result : Option Ctx
  deriving DecidableEq, Repr

def ModCache.empty : ModCache := { base := none, modifications := none, result := none }

/-- Pointer equality on (possibly absent) contexts: id equality, see `Ctx`. -/
def ctxPtrEq : Option Ctx → Option Ctx → Bool
  | some a, some b => a.id == b.id
  | _, _ => false

/-- `applyModificationsCached` from `src/util.ts`.  Returns the resulting
context together with the updated cache record.  `fresh` is the allocation id
used if `Context.change` has to allocate. -/
def applyModificationsCached (base : Ctx) (modifications : Option Mods)
    (cache : ModCache) (fresh : Nat) : Ctx × ModCache :=
  match modifications with
  | none => (base, cache)
  | some mods =>
    if ctxPtrEq cache.base (some base) &&
        (match cache.modifications with
         | some cm => sameShallowMods cm mods
         | none => false) then
      (cache.result.getD base, cache)
    else
      let result := ctxChange base mods fresh
      (result, { base := some base, modifications := some mods, result := some result })

/-! ## The bounded caches (`Cache`, `HashCache`) -/

/-- The linear-scan cache from `src/Cache.ts` (referred to below as the *scan
cache*): a list of entries, most recently inserted first, with a configurable
key comparator and maximum size (−1 meaning unbounded). -/
structure ScanCache (K V : Type) where
  entries : List (K × V)
  maxSize : Int
  keyComparator : K → K → Bool

namespace ScanCache

variable {K V : Type}

/-- `_findEntry`: index of the first entry whose key matches. -/
def findEntry (c : ScanCache K V) (key : K) : Option Nat :=
  c.entries.findIdx? (fun e => c.keyComparator key e.1)

/-- `this.entries[existingIndex].value = value`: replace the value of the
first entry whose key matches, leaving order and every other entry intact. -/
def updateFirst (cmp : K → K → Bool) (key : K) (value : V) : List (K × V) → List (K × V)
  | [] => []
  | e :: rest =>
    if cmp key e.1 then (e.1, value) :: rest
    else e :: updateFirst cmp key value rest

/-- `setEntry`: update in place when the key exists; otherwise insert at the
front and drop the last entry when over the maximum size. -/
def setEntry (c : ScanCache K V) (key : K) (value : V) : ScanCache K V :=
  match c.findEntry key with
  | some _ => { c with entries := updateFirst c.keyComparator key value c.entries }
  | none =>
    let entries₁ := if c.maxSize != 0 then (key, value) :: c.entries else c.entries
    let entries₂ :=
      if c.maxSize ≥ 0 && (entries₁.length : Int) > c.maxSize then entries₁.dropLast
      else entries₁
    { c with entries := entries₂ }

/-- `getEntry`, with `Cache.MISSING` modelled as `none`. -/
def getEntry (c : ScanCache K V) (key : K) : Option V :=
  (c.entries.find? (fun e => c.keyComparator key e.1)).map (·.2)

def empty (c : ScanCache K V) : ScanCache K V := { c with entries := [] }

def getSize (c : ScanCache K V) : Nat := c.entries.length

end ScanCache

/-- The hash-keyed cache from `src/HashCache.ts`: a `Map` from key hash to
value (insertion order preserved, modelled as an association list) plus the
`keysOrder` array whose deleted slots are nulled out. -/
structure HashCache (H V : Type) where
  entries : List (H × V)
  keysOrder : List (Option H)
  maxSize : Int

namespace HashCache

variable {H V : Type} [DecidableEq H]

def mapHas (m : List (H × V)) (h : H) : Bool := m.any (fun p => p.1 == h)

def mapSet (m : List (H × V)) (h : H) (v : V) : List (H × V) :=
  if mapHas m h then m.map (fun p => if p.1 == h then (h, v) else p)
  else m ++ [(h, v)]

def mapDelete (m : List (H × V)) (h : H) : List (H × V) :=
  m.filter (fun p => p.1 != h)

def mapGet (m : List (H × V)) (h : H) : Option V :=
  match m.find? (fun p => p.1 == h) with
  | some p => some p.2
  | none => none

/-- The eviction loop inside `HashCache.setEntry`: walk `keysOrder`, delete
the first non-null hash that differs from the new hash, null out its slot. -/
def evictFirstOther (entries : List (H × V)) (keysOrder : List (Option H)) (hash : H) :
    List (H × V) × List (Option H) :=
  match keysOrder with
  | [] => (entries, [])
  | none :: rest =>
    let (e, r) := evictFirstOther entries rest hash
    (e, none :: r)
  | some h :: rest =>
    if h == hash then
      let (e, r) := evictFirstOther entries rest hash
      (e, some h :: r)
    else
      (mapDelete entries h, none :: rest)

/-- `HashCache.setEntry`.  Note that the eviction step runs whenever the map
is at (or beyond) the maximum size — also when the key being set already has
an entry. -/
def setEntry (c : HashCache H V) (hash : H) (value : V) : HashCache H V :=
  let ek :=
    if c.maxSize ≥ 0 && (c.entries.length : Int) ≥ c.maxSize then
      evictFirstOther c.entries c.keysOrder hash
    else
      (c.entries, c.keysOrder)
  if c.maxSize != 0 then
    let keysOrder' := if mapHas ek.1 hash then ek.2 else ek.2 ++ [some hash]
    { c with entries := mapSet ek.1 hash value, keysOrder := keysOrder' }
  else
    { c with entries := ek.1, keysOrder := ek.2 }

/-- `HashCache.getEntry` (the `undefined`-valued-entry refinement collapses
in the model since values are not `undefined`-ambiguous here). -/
def getEntry (c : HashCache H V) (hash : H) : Option V :=
  mapGet c.entries hash

end HashCache

/-! ## The component engine (`src/Component.ts`)

The engine is embedded as a set of pure functions threading an explicit
`ES` (engine state) value, one function per source function, keeping the
source names (with the leading underscore dropped where present, and
`doRenderStep` for the internal `_doRender` to distinguish it from the
`doRender` hook).  Component *classes* (the set of overridable "virtual"
methods) are a parameter `cls : Nat → CompClass` mapping component ids to
their hook table (`RebackVirtualMethods`).  The `doPrepare`/`doRender` hooks
of a modelled class are restricted to the shape the claims need: read some
context attributes, render a list of children, and produce (or throw) a value
computed from the argument, the prepare result and the children's results. -/

/-- Component phases (the 3 low bits of `flags`). -/
inductive Phase where
  | creating | mounting | preparing | rendering | rendered | unmounting | restoring
  deriving DecidableEq, Repr

/-- What render-related code can throw: the distinguished `RenderPending`
signal or an ordinary JavaScript exception value. -/
inductive RThrow where
  | pending
  | err (v : JSVal)
  deriving DecidableEq, Repr

/-- How a hook renders a child: `render`, `renderRequired`, `renderOptional`
or a nested `renderRoot`. -/
inductive CallMode where
  | normal | required | optional | root
  deriving DecidableEq, Repr

/-- One child render performed by a `doRender` hook. -/
structure ChildCall where
  cid : Nat
  arg : JSVal
  mode : CallMode
  deriving DecidableEq, Repr

/-- The per-class table of virtual methods (`RebackVirtualMethods`), with the
render hook decomposed into the context reads it performs, the children it
renders, and the value it returns or throws. -/
structure CompClass where
  doPrepare : Mods → Except RThrow JSVal
  renderReads : JSVal → List String
  renderChildren : JSVal → JSVal → List ChildCall
  renderResult : JSVal → JSVal → List JSVal → Except RThrow JSVal
  doRenderPending : JSVal → JSVal
  doRenderError : JSVal → JSVal → Except RThrow JSVal
  prepareMods : Mods → Option Mods
  contextMods : JSVal → Option Mods
  shouldPrepare : List String → Bool
  shouldRender : JSVal → JSVal → Bool
  shouldWaitForChildren : Bool
  shouldInterruptRender : Nat → Nat → Nat → Bool
  maxRenderCacheSize : Int
  onChangeListeners : String → Bool  -- which attributes have an `onChange` listener

/-- The default virtual methods of the base `Component` class: `doPrepare`
returns `null`, `doRender`/`doRenderPending` return `undefined`,
`doRenderError` rethrows, no context modifications, `shouldPrepare` is
"any attribute changed", `shouldRender`/`shouldWaitForChildren`/
`shouldInterruptRender` are false, render cache size 1. -/
def defaultClass : CompClass where
  doPrepare := fun _ => .ok JSVal.jsNull
  renderReads := fun _ => []
  renderChildren := fun _ _ => []
  renderResult := fun _ _ _ => .ok JSVal.undef
  doRenderPending := fun _ => JSVal.undef
  doRenderError := fun _ e => .error (.err e)
  prepareMods := fun _ => none
  contextMods := fun _ => none
  shouldPrepare := fun changed => !changed.isEmpty
  shouldRender := fun _ _ => false
  shouldWaitForChildren := false
  shouldInterruptRender := fun _ _ _ => false
  maxRenderCacheSize := 1
  onChangeListeners := fun _ => false

/-- A render-cache entry / child-info record (`CacheEntry` = `ChildInfo`):
the produced result, the instance, a snapshot of its rendered children, the
context used, the used-context-attribute bitfield and the descendant count.
`eid` is the allocation id of the entry object (entries are compared by
pointer in `_useCache`). -/
inductive CEntry where
  | mk (eid : Nat) (result : JSVal) (inst : Nat)
       (children : Option (List (Nat × CEntry)))
       (context : Option Ctx) (usedCtx : List Nat) (descendantCount : Nat)

def CEntry.eid : CEntry → Nat
  | .mk e _ _ _ _ _ _ => e

def CEntry.result : CEntry → JSVal
  | .mk _ r _ _ _ _ _ => r

def CEntry.inst : CEntry → Nat
  | .mk _ _ i _ _ _ _ => i

def CEntry.children : CEntry → Option (List (Nat × CEntry))
  | .mk _ _ _ c _ _ _ => c

def CEntry.context : CEntry → Option Ctx
  | .mk _ _ _ _ c _ _ => c

def CEntry.usedCtx : CEntry → List Nat
  | .mk _ _ _ _ _ u _ => u

def CEntry.descendantCount : CEntry → Nat
  | .mk _ _ _ _ _ _ d => d

/-- Set a key in an id-keyed association map (`Map.set` semantics:
in-place update of an existing key, append otherwise). -/
def idMapSet (m : List (Nat × CEntry)) (k : Nat) (v : CEntry) : List (Nat × CEntry) :=
  if m.any (fun p => p.1 == k) then m.map (fun p => if p.1 == k then (k, v) else p)
  else m ++ [(k, v)]

def idMapHas (m : List (Nat × CEntry)) (k : Nat) : Bool :=
  m.any (fun p => p.1 == k)

/-- `ChildrenData`: prepare/rendered children plus the two modified-context
caches. -/
structure ChildrenData where
  prepareChildren : List (Nat × CEntry)
  renderedChildren : List (Nat × CEntry)
  modifiedPrepareContextCache : ModCache
  modifiedContextCache : ModCache

def ChildrenData.empty : ChildrenData :=
  { prepareChildren := [], renderedChildren := [],
    modifiedPrepareContextCache := ModCache.empty,
    modifiedContextCache := ModCache.empty }

/-- `RebackInternalData` (plus the component's `state` record and the
flattened `UncommonData`/`RootData`).  Boolean fields correspond one-to-one
to the `FLAG_*` bits of the source's packed `flags` word. -/
structure CompData where
  phase : Phase
  mounted : Bool                -- FLAG_MOUNTED
  prepared : Bool               -- FLAG_PREPARED
  keptMounted : Bool            -- FLAG_KEPT_MOUNTED
  avoidRenderAfterRender : Bool -- FLAG_AVOID_RENDER_AFTER_RENDER
  needsRenderAfterRender : Bool -- FLAG_NEEDS_RENDER_AFTER_RENDER
  needsPrepareAfterPrepare : Bool -- FLAG_NEEDS_PREPARE_AFTER_PREPARE
  errorDuringInit : Bool        -- FLAG_ERROR_DURING_INITIALIZE
  renderRootWasInterrupted : Bool -- FLAG_RENDER_ROOT_WAS_INTERRUPTED
  state : Mods
  changedAttributesSincePrepare : Option (List String)
  context : Option Ctx
  currentlyUsedCacheEid : Option Nat  -- `_currentlyUsedCache`, by pointer id
  prepare : Option Unit         -- a still-pending asynchronous preparation
  prepareResult : JSVal
  renderCache : List (JSVal × CEntry) -- scan-cache entries (key, entry)
  renderParent : Option Nat
  renderResult : Option JSVal
  usedContextAttributes : List Nat    -- bitfield, 30 bits per element
  childrenData : Option ChildrenData
  pendingRender : Bool          -- `_pendingRender` promise outstanding
  pendingCompleteRender : Bool  -- `_pendingCompleteRender` outstanding
  renderError : Option JSVal    -- `uncommonData.renderError`
  stateWaiters : List (String × List (Option JSVal)) -- `uncommonData.stateWaiters`
  needsRenderTimeout : Bool     -- `rootData.needsRenderTimeout`
  interruptGeneration : Nat     -- `rootData.interruptGeneration`
  componentCount : Nat          -- `rootData.componentCount`

/-- A freshly constructed component (constructor + `_resetPendingRender`),
with the given initial state record (`defaults()`). -/
def newCompData (state : Mods) : CompData where
  phase := .creating
  mounted := false
  prepared := false
  keptMounted := false
  avoidRenderAfterRender := false
  needsRenderAfterRender := false
  needsPrepareAfterPrepare := false
  errorDuringInit := false
  renderRootWasInterrupted := false
  state := state
  changedAttributesSincePrepare := none
  context := none
  currentlyUsedCacheEid := none
  prepare := none
  prepareResult := JSVal.jsNull
  renderCache := []
  renderParent := none
  renderResult := none
  usedContextAttributes := []
  childrenData := none
  pendingRender := true
  pendingCompleteRender := true
  renderError := none
  stateWaiters := []
  needsRenderTimeout := false
  interruptGeneration := 0
  componentCount := 0

instance : Inhabited CompData := ⟨newCompData []⟩

/-- The module-level `renderState` object. -/
structure RenderState where
  isRendering : Bool
  isRenderInterrupted : Bool
  lastRenderWasInterrupted : Bool
  lastRenderComponentCount : Nat
  renderStartTime : Nat
  renderInterruptGeneration : Nat
  renderComponentCount : Nat
  deriving DecidableEq, Repr

def RenderState.initial : RenderState :=
  { isRendering := false, isRenderInterrupted := false,
    lastRenderWasInterrupted := false, lastRenderComponentCount := 0,
    renderStartTime := 0, renderInterruptGeneration := 0,
    renderComponentCount := 0 }

/-- Observable events: every lifecycle-hook and render-hook invocation the
engine performs, in order. -/
inductive Ev where
  | appear (c : Nat)
  | mount (c : Nat)
  | unmount (c : Nat)
  | disappear (c : Nat)
  | receiveContext (c : Nat)
  | prepareCall (c : Nat)
  | renderCall (c : Nat) (arg : JSVal)
  | renderPendingCall (c : Nat) (arg : JSVal)
  | renderErrorCall (c : Nat) (arg : JSVal) (error : JSVal)
  | cachedRender (c : Nat) (result : JSVal)
  | changeListener (c : Nat) (name : String) (value : JSVal) (oldValue : JSVal)
  | waiterResolved (c : Nat) (name : String)
  deriving DecidableEq, Repr

/-- The whole mutable world of the engine module: the component heap, the
render stack, the module-level `renderState`, the process-wide registries of
interrupted and recently unmounted components, the scheduled-timeout flags,
the context name→key table, a fresh-allocation-id counter and the event
log. -/
structure ES where
  comps : List (Nat × CompData)
  renderStack : List Nat
  rs : RenderState
  interrupted : List (Nat × List Nat)   -- root id → interrupted component ids
  rerenderInterruptedScheduled : Bool
  unmounted : List Nat
  disappearScheduled : Bool
  ctxNames : List String                -- `contextNamesByKey` / `contextNamesByKey`
  nextId : Nat                          -- allocator for contexts and cache entries
  log : List Ev

def ES.getC (σ : ES) (i : Nat) : CompData :=
  match σ.comps.find? (fun p => p.1 == i) with
  | some p => p.2
  | none => default

def ES.modC (σ : ES) (i : Nat) (f : CompData → CompData) : ES :=
  { σ with comps := σ.comps.map (fun p => if p.1 == i then (p.1, f p.2) else p) }

def ES.push (σ : ES) (e : Ev) : ES :=
  { σ with log := σ.log ++ [e] }

/-- Allocate a fresh object id (contexts and cache entries share the
counter; ids start above 0, which is reserved for `emptyContext`). -/
def ES.alloc (σ : ES) : Nat × ES :=
  (σ.nextId, { σ with nextId := σ.nextId + 1 })

/-! ### Bitfields of used context attributes (`src/Context.ts`) -/

/-- `BITS_PER_ELEMENT`. -/
def bitsPerElement : Nat := 30

/-- `setBit`: grow the bitfield with zeros as needed, then set the bit. -/
def setBitL (bf : List Nat) (index : Nat) : List Nat :=
  let ei := index / bitsPerElement
  let bf := if bf.length ≤ ei then bf ++ List.replicate (ei + 1 - bf.length) 0 else bf
  bf.set ei (bf.getD ei 0 ||| (1 <<< (index % bitsPerElement)))

/-- `anyUsedAttribute`: whether the callback holds of the name of any set
bit (`names` is the process-wide `contextNamesByKey` table). -/
def anyUsedAttribute (names : List String) (bf : List Nat) (p : String → Bool) : Bool :=
  (List.range bf.length).any fun i =>
    let element := bf.getD i 0
    element != 0 &&
      (List.range bitsPerElement).any fun j =>
        element.testBit j && p (names.getD (i * bitsPerElement + j) "")

/-- `addUsedContextAttributes`: index-wise union of two bitfields (the
source mutates `target` in place; the result here is the mutated value). -/
def addUsed (target source : List Nat) : List Nat :=
  (List.range (max target.length source.length)).map fun i =>
    target.getD i 0 ||| source.getD i 0

/-- `didContextChange` from `src/Component.ts`: false when there is no new
context or it is pointer-identical to the previous one; otherwise true iff
some used attribute's value differs (`Context.sameValue`, i.e.
`sameValueZero`) between the two contexts (or there was no previous
context at all). -/
def didContextChange (names : List String) (newContext prevContext : Option Ctx)
    (used : List Nat) : Bool :=
  match newContext with
  | none => false
  | some ctx =>
    if ctxPtrEq (some ctx) prevContext then false
    else
      anyUsedAttribute names used fun name =>
        match prevContext with
        | none => true
        | some prev => !(sameValueZero (modsGet prev.attrs name) (modsGet ctx.attrs name))

/-! ### Small state operations -/

/-- `getCurrentRenderParent`: top of the render stack. -/
def getCurrentRenderParent (σ : ES) : Option Nat :=
  σ.renderStack.getLast?

/-- `getCurrentRenderRoot`: bottom of the render stack. -/
def getCurrentRenderRoot (σ : ES) : Option Nat :=
  σ.renderStack.head?

/-- The data captured by `resetState` (the seven `renderState` fields plus
the render stack). -/
def snapshotState (σ : ES) : RenderState × List Nat :=
  (σ.rs, σ.renderStack)

/-- `resetState` (without the snapshot part): clears `isRendering`,
`isRenderInterrupted`, `lastRenderWasInterrupted`,
`lastRenderComponentCount`, `renderComponentCount` and the render stack;
`renderStartTime` and `renderInterruptGeneration` are left to be set by
`renderRoot`. -/
def resetStateES (σ : ES) : ES :=
  { σ with
    rs := { σ.rs with
            isRendering := false, isRenderInterrupted := false,
            lastRenderWasInterrupted := false, lastRenderComponentCount := 0,
            renderComponentCount := 0 },
    renderStack := [] }

/-- `restoreState`. -/
def restoreStateES (old : RenderState × List Nat) (σ : ES) : ES :=
  { σ with rs := old.1, renderStack := old.2 }

/-- `_invalidatePrepareCache`. -/
def invalidatePrepareCache (σ : ES) (i : Nat) : ES :=
  σ.modC i fun d =>
    { d with
      prepare := none, prepared := false, prepareResult := JSVal.jsNull,
      childrenData := d.childrenData.map fun cd => { cd with prepareChildren := [] } }

/-- `_invalidateRenderCache`. -/
def invalidateRenderCache (σ : ES) (i : Nat) : ES :=
  σ.modC i fun d =>
    { d with
      renderCache := [], currentlyUsedCacheEid := none,
      renderError := if d.errorDuringInit then d.renderError else none }

/-- `_resetPendingRender`. -/
def resetPendingRender (σ : ES) (i : Nat) : ES :=
  σ.modC i fun d => { d with pendingRender := true, pendingCompleteRender := true }

/-- `scheduleDisappearHandlers` (schedules the deferred `onDisappear`
tick if it is not scheduled yet). -/
def scheduleDisappearHandlers (σ : ES) : ES :=
  if σ.disappearScheduled then σ else { σ with disappearScheduled := true }

/-- The callback scheduled by `scheduleDisappearHandlers`: on the next tick,
every recently unmounted component that is *still* unmounted gets its
`onDisappear` hook; remounted components are skipped.  The list is cleared. -/
def runDisappearTick (σ : ES) : ES :=
  let σ := { σ with disappearScheduled := false }
  let σ := σ.unmounted.foldl
    (fun σ' i => if (σ'.getC i).mounted then σ' else σ'.push (.disappear i)) σ
  { σ with unmounted := [] }

/-- `scheduleRerenderInterrupted`. -/
def scheduleRerenderInterrupted (σ : ES) : ES :=
  if σ.rerenderInterruptedScheduled then σ else { σ with rerenderInterruptedScheduled := true }

/-- `Context.get` as performed through a component-bound context
(`changeComponent`): assign the name a numeric key in the process-wide
table if it has none yet and record the read in the component's
used-attribute bitfield. -/
def recordRead (σ : ES) (i : Nat) (name : String) : ES :=
  let (key, σ) :=
    match σ.ctxNames.findIdx? (· == name) with
    | some k => (k, σ)
    | none => (σ.ctxNames.length, { σ with ctxNames := σ.ctxNames ++ [name] })
  σ.modC i fun d =>
    { d with usedContextAttributes := setBitL d.usedContextAttributes key }

/-- Record one interrupted component against the current root
(`interruptedComponents`). -/
def addInterrupted (σ : ES) (rootId i : Nat) : ES :=
  if σ.interrupted.any (fun p => p.1 == rootId) then
    { σ with interrupted :=
        σ.interrupted.map fun p => if p.1 == rootId then (p.1, p.2 ++ [i]) else p }
  else
    { σ with interrupted := σ.interrupted ++ [(rootId, [i])] }

/-- `getModifiedContext`: apply the prepare-phase context modifications
(cached) to the component's own context, and — once prepared — the
post-prepare modifications (also cached) on top. -/
def getModifiedContext (cls : Nat → CompClass) (i : Nat) (σ : ES) : Ctx × ES :=
  let d := σ.getC i
  let base := d.context.getD emptyCtx
  let pmods := (cls i).prepareMods d.state
  let cd := d.childrenData.getD ChildrenData.empty
  let (f1, σ) := σ.alloc
  let (prepCtx, cache1) := applyModificationsCached base pmods cd.modifiedPrepareContextCache f1
  let cd := { cd with modifiedPrepareContextCache := cache1 }
  let σ := σ.modC i fun dd => { dd with childrenData := some cd }
  if !d.prepared then (prepCtx, σ)
  else
    let mods := (cls i).contextMods d.prepareResult
    let (f2, σ) := σ.alloc
    let (ctx2, cache2) := applyModificationsCached prepCtx mods cd.modifiedContextCache f2
    let σ := σ.modC i fun dd =>
      { dd with childrenData := some { cd with modifiedContextCache := cache2 } }
    (ctx2, σ)

/-- `_updateContext`: determine the (given or parent-derived) context; when
it is a different object than before, store it, invalidate both caches if a
*used* attribute changed value, and fire `onReceiveContext`. -/
def updateContext (cls : Nat → CompClass) (i : Nat) (parent : Option Nat)
    (givenContext : Option Ctx) (σ : ES) : ES :=
  let d := σ.getC i
  let prevContext := d.context
  let (context, σ) :=
    match givenContext with
    | some c => (c, σ)
    | none =>
      match parent with
      | some p => getModifiedContext cls p σ
      | none => (emptyCtx, σ)
  if ctxPtrEq (some context) prevContext then σ
  else
    let σ := σ.modC i fun dd => { dd with context := some context }
    let σ :=
      if didContextChange σ.ctxNames (some context) prevContext d.usedContextAttributes then
        invalidateRenderCache (invalidatePrepareCache σ i) i
      else σ
    if d.errorDuringInit then σ else σ.push (.receiveContext i)

/-- `_childFinishedRender`: register the child (with a fresh child-info
record snapshotting its children, context and used attributes) in the
parent's rendered children and merge the child's used attributes into the
parent's. -/
def childFinishedRender (thisId childId : Nat) (result : JSVal) (σ : ES) : ES :=
  let cd := σ.getC childId
  let (eid, σ) := σ.alloc
  let entry := CEntry.mk eid result childId
    (cd.childrenData.map (·.renderedChildren)) cd.context cd.usedContextAttributes 0
  σ.modC thisId fun d =>
    let c := d.childrenData.getD ChildrenData.empty
    { d with
      childrenData := some { c with renderedChildren := idMapSet c.renderedChildren childId entry },
      usedContextAttributes := addUsed d.usedContextAttributes cd.usedContextAttributes }

/-! ### Force-render / force-prepare / render requests

`_forceRender`, `_forcePrepare` and `_requestRender` recurse along the
parent chain; they are bundled into one fuel-indexed function. -/

/-- A pending call in the `_forceRender`/`_forcePrepare`/`_requestRender`
cluster. -/
inductive FCall where
  | forceRender (i : Nat) (notDuringRender : Bool)
  | forcePrepare (i : Nat)
  | requestRender (i : Nat)

/-- The body of one `_forceRender` / `_forcePrepare` / `_requestRender`
step; `rec` performs the recursive call on the parent chain. -/
def forceOpsBody (cls : Nat → CompClass) (rec : FCall → ES → ES) :
    FCall → ES → ES
  | .forceRender i notDuringRender, σ =>
    let σ := invalidateRenderCache σ i
    let d := σ.getC i
    if d.phase = .rendering && !d.avoidRenderAfterRender && !notDuringRender then
      σ.modC i fun dd => { dd with needsRenderAfterRender := true }
    else if d.phase ≠ .rendered && d.phase ≠ .restoring then σ
    else
      rec (.requestRender i) (resetPendingRender σ i)
  | .forcePrepare i, σ =>
    let d := σ.getC i
    if d.phase = .preparing then
      σ.modC i fun dd => { dd with needsPrepareAfterPrepare := true }
    else if d.phase ≠ .rendered && d.phase ≠ .restoring && d.phase ≠ .rendering then σ
    else
      rec (.forceRender i false) (invalidatePrepareCache σ i)
  | .requestRender i, σ =>
    let d := σ.getC i
    match d.renderParent with
    | some p =>
      let pd := σ.getC p
      if (pd.childrenData.map fun cd => idMapHas cd.prepareChildren i).getD false then
        rec (.forcePrepare p) σ
      else
        rec (.forceRender p false) σ
    | none =>
      if d.needsRenderTimeout then σ
      else σ.modC i fun dd => { dd with needsRenderTimeout := true }

/-- `_forceRender` / `_forcePrepare` / `_requestRender`. -/
def forceOps (cls : Nat → CompClass) (fuel : Nat) : FCall → ES → ES :=
  Nat.rec (motive := fun _ => FCall → ES → ES)
    (fun _ σ => σ) (fun _ ih => forceOpsBody cls ih) fuel

/-! ### State mutation (`_setState`) -/

/-- Numeric order of phases (the 3-bit phase values of the source, used by
`_setState`'s `phase > Phase.MOUNTING` comparison). -/
def Phase.idx : Phase → Nat
  | .creating => 0
  | .mounting => 1
  | .preparing => 2
  | .rendering => 3
  | .rendered => 4
  | .unmounting => 5
  | .restoring => 6

/-- One iteration of the `_setState` loop body for attribute `name` with new
value `value`.  Returns the updated state plus the names of the waiters to
resolve (resolution is deferred to the end of `_setState`).  The boolean
is the source's `hasChanged` contribution. -/
def setStateOne (cls : Nat → CompClass) (i : Nat) (name : String) (value : JSVal)
    (σ : ES) : ES × Bool × List String :=
  let d := σ.getC i
  let oldValue := modsGet d.state name
  if !sameValueZero oldValue value then
    let σ := σ.modC i fun dd => { dd with state := modsSet dd.state name value }
    let σ :=
      if (cls i).onChangeListeners name then σ.push (.changeListener i name value oldValue)
      else σ
    let σ :=
      if (σ.getC i).phase.idx > Phase.mounting.idx then
        σ.modC i fun dd =>
          let l := dd.changedAttributesSincePrepare.getD []
          let l' := if l.contains name then l else l ++ [name]
          { dd with changedAttributesSincePrepare := some l' }
      else σ
    -- waiters with a matching value (strict equality) are collected and
    -- their slots nulled
    let d2 := σ.getC i
    let matchesWaiter : Option JSVal → Bool := fun slot =>
      match slot with
      | some v => jsEq value v
      | none => false
    let hits := (d2.stateWaiters.filter (fun w => w.1 == name)).foldl
      (fun acc w => acc ++ (w.2.filter matchesWaiter).map (fun _ => name)) []
    let σ := σ.modC i fun dd =>
      { dd with stateWaiters := dd.stateWaiters.map fun w =>
          if w.1 == name then
            (w.1, w.2.map fun slot =>
              match slot with
              | some v => if jsEq value v then none else some v
              | none => none)
          else w }
    (σ, true, hits)
  else
    (σ, false, [])

/-- The fold step of the `_setState` loop: thread the state, accumulate
`hasChanged` and the collected waiters. -/
def setStateFoldStep (cls : Nat → CompClass) (i : Nat)
    (acc : ES × Bool × List String) (p : String × JSVal) : ES × Bool × List String :=
  let r := setStateOne cls i p.1 p.2 acc.1
  (r.1, acc.2.1 || r.2.1, acc.2.2 ++ r.2.2)

/-- `_setState`: apply each supplied attribute in order (skipping values
equal under `sameValueZero`), fire change listeners, record
changed-since-prepare attributes, collect state waiters; afterwards, if
anything changed, resolve the collected waiters and `_forceRender`. -/
def setState (cls : Nat → CompClass) (fuel : Nat) (i : Nat) (values : Mods) (σ : ES) : ES :=
  let r := values.foldl (setStateFoldStep cls i) (σ, false, [])
  if r.2.1 then
    let σ := r.2.2.foldl (fun σ' n => σ'.push (.waiterResolved i n)) r.1
    forceOps cls fuel (.forceRender i false) σ
  else r.1

/-! ### Interrupted-component bookkeeping -/

/-- The per-component loop body of `_rerenderInterrupted`: starting from an
interrupted component, invalidate render (and, where flagged, prepare)
caches up the parent chain, stopping at a component whose phase is not
`RENDERED`/`RESTORING`. -/
def bubbleInvalidateBody (rec : Nat → Bool → ES → ES)
    (i : Nat) (invalidatePrepare : Bool) (σ : ES) : ES :=
  let σ := if invalidatePrepare then invalidatePrepareCache σ i else σ
  let σ := invalidateRenderCache σ i
  let d := σ.getC i
  if d.phase ≠ .rendered && d.phase ≠ .restoring then σ
  else
    let σ := resetPendingRender σ i
    match d.renderParent with
    | none => σ
    | some p =>
      let pd := σ.getC p
      let ip := (pd.childrenData.map fun cd => idMapHas cd.prepareChildren i).getD false
      rec p ip σ

def bubbleInvalidate (fuel : Nat) : Nat → Bool → ES → ES :=
  Nat.rec (motive := fun _ => Nat → Bool → ES → ES)
    (fun _ _ σ => σ) (fun _ ih => bubbleInvalidateBody ih) fuel

/-- `_rerenderInterrupted`: invalidate the caches of all components recorded
as interrupted under the given root (bubbling up their parent chains) and
drop the root's entry from the table. -/
def rerenderInterrupted (fuel : Nat) (rootId : Nat) (σ : ES) : ES :=
  match σ.interrupted.find? (fun p => p.1 == rootId) with
  | none => σ
  | some item =>
    let σ := item.2.foldl (fun σ' i => bubbleInvalidate fuel i false σ') σ
    { σ with interrupted := σ.interrupted.filter fun p => p.1 != rootId }

/-! ### Unmounting -/

/-- `_unmountFromParent`: no-op when the component has (within this pass)
already been mounted into a different parent; otherwise recursively unmount
the rendered children, invalidate both caches, fire `onUnmount`, clear the
mounted flag and parent, and schedule the deferred `onDisappear` tick. -/
def unmountFromParentBody (rec : Nat → Option Nat → ES → ES)
    (i : Nat) (parent : Option Nat) (σ : ES) : ES :=
  let d := σ.getC i
  if d.renderParent ≠ parent then σ
  else
    let σ :=
      match d.childrenData with
      | some cd =>
        cd.renderedChildren.foldl
          (fun σ' (p : Nat × CEntry) => rec p.2.inst (some i) σ') σ
      | none => σ
    let σ := σ.modC i fun dd => { dd with phase := .unmounting }
    let σ := invalidatePrepareCache σ i
    let σ := invalidateRenderCache σ i
    let d2 := σ.getC i
    let σ := if d2.errorDuringInit then σ else σ.push (.unmount i)
    let σ := σ.modC i fun dd => { dd with mounted := false, renderParent := none }
    if d2.errorDuringInit then σ
    else scheduleDisappearHandlers { σ with unmounted := σ.unmounted ++ [i] }

def unmountFromParent (fuel : Nat) : Nat → Option Nat → ES → ES :=
  Nat.rec (motive := fun _ => Nat → Option Nat → ES → ES)
    (fun _ _ σ => σ) (fun _ ih => unmountFromParentBody ih) fuel

/-- `_unmountPreviousChildren`: unmount every previously rendered child that
does not occur in the new children. -/
def unmountPreviousChildren (fuel : Nat) (prev : List (Nat × CEntry))
    (next : Option (List (Nat × CEntry))) (that : Nat) (σ : ES) : ES :=
  prev.foldl
    (fun σ' p =>
      if (next.map fun n => idMapHas n p.1).getD false then σ'
      else unmountFromParent fuel p.2.inst (some that) σ')
    σ

/-! ### Remounting and entering render -/

/-- `_remount`: unmount from the previous parent if the component was
mounted, re-establish the context, then fire `onAppear` (only when not
mounted before) and `onMount`. -/
def remount (cls : Nat → CompClass) (fuel : Nat) (i : Nat) (wasMounted : Bool)
    (prevParent newParent : Option Nat) (givenContext : Option Ctx) (σ : ES) : ES :=
  let σ := if wasMounted then unmountFromParent fuel i prevParent σ else σ
  let σ := updateContext cls i newParent givenContext σ
  let d := σ.getC i
  if d.errorDuringInit then σ
  else
    let σ := if wasMounted then σ else σ.push (.appear i)
    σ.push (.mount i)

/-- `_enterRender`: set phase `MOUNTING`, resolve the pending-render
promise, point the component at the current render parent and either
remount (parent changed, or fresh root) or merely refresh the context. -/
def enterRender (cls : Nat → CompClass) (fuel : Nat) (i : Nat)
    (givenContext : Option Ctx) (σ : ES) : ES :=
  let σ := σ.modC i fun d => { d with keptMounted := false, phase := .mounting }
  let d := σ.getC i
  let σ := if d.pendingRender then σ.modC i fun dd => { dd with pendingRender := false } else σ
  let prevParent := d.renderParent
  let newParent := getCurrentRenderParent σ
  let wasMounted := d.mounted
  let σ := σ.modC i fun dd =>
    { dd with mounted := true, renderParent := newParent, needsRenderAfterRender := false }
  if newParent ≠ prevParent || (newParent = none && !wasMounted) then
    remount cls fuel i wasMounted prevParent newParent givenContext σ
  else
    updateContext cls i newParent givenContext σ

/-! ### Prepare -/

/-- `_doPrepare` (synchronous-result path): set phase `PREPARING`, run the
`doPrepare` hook on the component's state; a throw clears `_prepare` and is
returned as the error, a plain value marks the component prepared. -/
def doPrepareStep (cls : Nat → CompClass) (i : Nat) (σ : ES) : Option RThrow × ES :=
  let σ := σ.modC i fun d =>
    { d with prepared := false, needsPrepareAfterPrepare := false, phase := .preparing }
  let d := σ.getC i
  let σ := σ.push (.prepareCall i)
  match (cls i).doPrepare d.state with
  | .error e => (some e, σ.modC i fun dd => { dd with prepare := none })
  | .ok v =>
    (none, σ.modC i fun dd =>
      { dd with prepared := true, prepareResult := v, prepare := none })

/-- The `do … while (FLAG_NEEDS_PREPARE_AFTER_PREPARE)` loop of `_doRender`
around `_doPrepare`: after each prepare, `prepareChildren` is re-seeded from
`renderedChildren` and the children's used context attributes are merged in;
a prepare error is thrown only after that bookkeeping. -/
def doPrepareLoopBody (cls : Nat → CompClass) (rec : Nat → ES → Option RThrow × ES)
    (i : Nat) (σ : ES) : Option RThrow × ES :=
  let (err, σ) := doPrepareStep cls i σ
  let d := σ.getC i
  let σ :=
    match d.childrenData with
    | some cd =>
      let cd' := { cd with prepareChildren := cd.renderedChildren }
      let σ := σ.modC i fun dd => { dd with childrenData := some cd' }
      cd'.prepareChildren.foldl
        (fun σ' p =>
          let childUsed := (σ'.getC p.2.inst).usedContextAttributes
          σ'.modC i fun dd =>
            { dd with usedContextAttributes := addUsed dd.usedContextAttributes childUsed })
        σ
    | none => σ
  match err with
  | some e => (some e, σ)
  | none =>
    if (σ.getC i).needsPrepareAfterPrepare then rec i σ
    else (none, σ)

def doPrepareLoop (cls : Nat → CompClass) (fuel : Nat) : Nat → ES → Option RThrow × ES :=
  Nat.rec (motive := fun _ => Nat → ES → Option RThrow × ES)
    (fun _ σ => (none, σ)) (fun _ ih => doPrepareLoopBody cls ih) fuel

/-! ### The render cache path -/

/-- `_useCache`: install a cached render entry on the component (result,
children, used attributes), merge the used attributes into the render
parent, fire `onCachedRender`; when the entry is not the one already in use,
recursively re-install the cached children, remounting any child whose
render parent differs. -/
def useCacheBody (cls : Nat → CompClass) (fuel : Nat) (rec : Nat → CEntry → ES → ES)
    (i : Nat) (entry : CEntry) (σ : ES) : ES :=
    let result := entry.result
    let children := entry.children
    let used := entry.usedCtx
    let σ := σ.modC i fun d => { d with renderResult := some result }
    let σ :=
      match children with
      | some chs =>
        σ.modC i fun d =>
          let cd := d.childrenData.getD ChildrenData.empty
          { d with childrenData := some { cd with renderedChildren := chs } }
      | none =>
        σ.modC i fun d =>
          match d.childrenData with
          | some cd => { d with childrenData := some { cd with renderedChildren := [] } }
          | none => d
    let σ := σ.modC i fun d => { d with usedContextAttributes := used }
    let d := σ.getC i
    let σ :=
      match d.renderParent with
      | some p =>
        σ.modC p fun pd =>
          { pd with usedContextAttributes := addUsed pd.usedContextAttributes used }
      | none => σ
    let σ := σ.push (.cachedRender i result)
    if d.currentlyUsedCacheEid = some entry.eid then σ
    else
      let σ := σ.modC i fun dd => { dd with currentlyUsedCacheEid := some entry.eid }
      match children with
      | none => σ
      | some chs =>
        chs.foldl
          (fun σ' (p : Nat × CEntry) =>
            let centry := p.2
            let child := centry.inst
            let cdta := σ'.getC child
            let σ' :=
              if cdta.renderParent ≠ some i then
                let wasMounted := cdta.mounted
                let prevParent := cdta.renderParent
                let σ' := σ'.modC child fun dd =>
                  { dd with renderParent := some i, mounted := true, phase := .restoring }
                remount cls fuel child wasMounted prevParent (some i) none σ'
              else σ'
            let σ' := σ'.modC child fun dd => { dd with phase := .rendered }
            rec child centry σ')
          σ

def useCache (cls : Nat → CompClass) (fuel : Nat) : Nat → CEntry → ES → ES :=
  Nat.rec (motive := fun _ => Nat → CEntry → ES → ES)
    (fun _ _ σ => σ) (fun n ih => useCacheBody cls n ih) fuel

/-! ### Rendering -/

/-- A child-render callback: how the render hook of a component renders one
child (ties the recursive knot through `renderCall` below). -/
abbrev RunChild := ChildCall → ES → Except RThrow JSVal × ES

/-- The interpretation of a `doRender` hook invocation
(`methods.doRender.call(that, arg, prepareResult)`): log the call, perform
the hook's context reads, render its children in order (a throw from a
child render propagates out of the hook immediately), then produce the
hook's own result (or throw). -/
def runDoRenderHook (cls : Nat → CompClass) (runChild : RunChild) (i : Nat)
    (arg : JSVal) (σ : ES) : Except RThrow JSVal × ES :=
  let d := σ.getC i
  let σ := σ.push (.renderCall i arg)
  let σ := ((cls i).renderReads arg).foldl (fun σ' n => recordRead σ' i n) σ
  let (res, σ) :=
    ((cls i).renderChildren arg d.prepareResult).foldl
      (fun (acc : Except RThrow (List JSVal) × ES) cc =>
        match acc.1 with
        | .error _ => acc
        | .ok vs =>
          match runChild cc acc.2 with
          | (.ok v, σ') => (.ok (vs ++ [v]), σ')
          | (.error e, σ') => (.error e, σ'))
      (.ok [], σ)
  match res with
  | .error e => (.error e, σ)
  | .ok vs => ((cls i).renderResult arg d.prepareResult vs, σ)

/-- `_doRender` (named `doRenderStep` here to leave `doRender` for the
hook): throw `RenderPending` if an asynchronous prepare is outstanding;
re-prepare when required (clearing used attributes, changed attributes and
the render cache first); then consult the render cache — a hit whose
used-context attributes did not change value and which `shouldRender` does
not override is installed via `_useCache`, otherwise the `doRender` hook
runs and (unless a re-render was requested during it) the result is stored
in the cache. -/
def doRenderStep (cls : Nat → CompClass) (runChild : RunChild) (fuel : Nat)
    (i : Nat) (arg : JSVal) (σ : ES) : Except RThrow JSVal × ES :=
  let d := σ.getC i
  if d.prepare.isSome then (.error .pending, σ)
  else
    let changedAttrs := d.changedAttributesSincePrepare
    let (err, σ) :=
      if !d.prepared || (cls i).shouldPrepare (changedAttrs.getD []) then
        let σ := σ.modC i fun dd => { dd with usedContextAttributes := [] }
        let σ :=
          match changedAttrs with
          | some _ => σ.modC i fun dd => { dd with changedAttributesSincePrepare := some [] }
          | none => σ
        let σ := invalidateRenderCache σ i
        doPrepareLoop cls fuel i σ
      else
        let σ :=
          match d.childrenData with
          | some cd =>
            σ.modC i fun dd =>
              { dd with childrenData := some { cd with renderedChildren := cd.prepareChildren } }
          | none => σ
        (none, σ)
    match err with
    | some e => (.error e, σ)
    | none =>
      let d := σ.getC i
      let cache : ScanCache JSVal CEntry :=
        { entries := d.renderCache, maxSize := (cls i).maxRenderCacheSize,
          keyComparator := sameShallowVal }
      let cached := cache.getEntry arg
      let freshRender : Bool :=
        match cached with
        | none => true
        | some entry =>
          didContextChange σ.ctxNames d.context entry.context entry.usedCtx ||
            (cls i).shouldRender arg d.prepareResult
      if freshRender then
        let σ := σ.modC i fun dd => { dd with phase := .rendering }
        let previousCount := σ.rs.renderComponentCount
        let (res, σ) := runDoRenderHook cls runChild i arg σ
        match res with
        | .error e => (.error e, σ)
        | .ok renderResult =>
          let d := σ.getC i
          let σ :=
            if !d.needsRenderAfterRender then
              let descendantCount := σ.rs.renderComponentCount - previousCount
              let (eid, σ) := σ.alloc
              let entry := CEntry.mk eid renderResult i
                (d.childrenData.map (·.renderedChildren)) d.context
                d.usedContextAttributes descendantCount
              let cache' : ScanCache JSVal CEntry :=
                { entries := d.renderCache, maxSize := (cls i).maxRenderCacheSize,
                  keyComparator := sameShallowVal }
              σ.modC i fun dd =>
                { dd with renderCache := (cache'.setEntry arg entry).entries,
                          currentlyUsedCacheEid := some eid }
            else σ
          (.ok renderResult, σ)
      else
        match cached with
        | some entry =>
          let σ := useCache cls fuel i entry σ
          let σ := { σ with rs :=
            { σ.rs with renderComponentCount := σ.rs.renderComponentCount + entry.descendantCount } }
          (.ok entry.result, σ)
        | none => (.error .pending, σ)  -- unreachable: `freshRender` is true when the cache missed

/-- The outcome of the guarded body of `_performRender`: interrupted, a
value, or a caught exception (`resultOrException` together with `success`
and the `=== RENDER_INTERRUPT` comparison). -/
inductive ROE where
  | interrupted
  | val (v : JSVal)
  | exn (e : RThrow)

/-- `_performRender`: push the component, decide interruption, run the body
(error-render hook when an error is given, otherwise `_doRender`), record
interruption against the current root, then dispatch on the outcome —
success commits the result; interruption or `RenderPending` restores the
previous children and either marks the component pending (required, or
non-optional under a waiting parent) or renders the pending placeholder; any
other exception becomes the render error.  Finally pop, unmount vanished
previous children (when children were not kept) and register the finished
child with its parent.  Returns `(isPending, renderResult, renderError)`. -/
def performRender (cls : Nat → CompClass) (runChild : RunChild) (fuel : Nat)
    (i : Nat) (arg : JSVal) (error : Option JSVal)
    (isRequired isOptional keepExistingChildren : Bool) (σ : ES) :
    (Bool × Option JSVal × Option JSVal) × ES :=
  let d := σ.getC i
  let prevChildren : Option (List (Nat × CEntry)) := d.childrenData.map (·.renderedChildren)
  let σ :=
    if keepExistingChildren then σ
    else
      match d.childrenData with
      | some cd => σ.modC i fun dd => { dd with childrenData := some { cd with renderedChildren := [] } }
      | none => σ
  let σ := { σ with renderStack := σ.renderStack ++ [i] }
  let σ := σ.modC i fun dd => { dd with phase := .rendering }
  let newComponents := σ.rs.renderComponentCount - σ.rs.lastRenderComponentCount
  let mayInterrupt :=
    σ.rs.isRenderInterrupted || !σ.rs.lastRenderWasInterrupted || newComponents > 0
  let shouldInterrupt :=
    if mayInterrupt then
      (cls i).shouldInterruptRender σ.rs.renderInterruptGeneration 0 newComponents
    else false
  let σ :=
    if shouldInterrupt && !σ.rs.isRenderInterrupted then
      { σ with rs := { σ.rs with
          isRenderInterrupted := true,
          renderInterruptGeneration := σ.rs.renderInterruptGeneration + 1 } }
    else σ
  let (roe, σ) : ROE × ES :=
    if shouldInterrupt then (.interrupted, σ)
    else
      match error with
      | some e =>
        let σ := σ.push (.renderErrorCall i arg e)
        match (cls i).doRenderError arg e with
        | .ok v => (.val v, σ)
        | .error e2 => (.exn e2, σ)
      | none =>
        match doRenderStep cls runChild fuel i arg σ with
        | (.ok v, σ') => (.val v, σ')
        | (.error e, σ') => (.exn e, σ')
  let isInterrupted : Bool := match roe with | .interrupted => true | _ => false
  let σ :=
    if isInterrupted then
      match getCurrentRenderRoot σ with
      | some rootId => scheduleRerenderInterrupted (addInterrupted σ rootId i)
      | none => σ
    else σ
  let parent := (σ.getC i).renderParent
  let (isPending, renderResult, renderError, σ) :
      Bool × Option JSVal × Option JSVal × ES :=
    match roe with
    | .val v =>
      let σ :=
        if (σ.getC i).pendingCompleteRender then
          σ.modC i fun dd => { dd with pendingCompleteRender := false }
        else σ
      (false, some v, none, σ)
    | .interrupted | .exn .pending =>
      let σ :=
        match prevChildren with
        | some pc =>
          σ.modC i fun dd =>
            let cd := dd.childrenData.getD ChildrenData.empty
            let merged := pc.foldl (fun acc p => idMapSet acc p.1 p.2) cd.renderedChildren
            { dd with childrenData := some { cd with renderedChildren := merged } }
        | none => σ
      let parentWaits :=
        match parent with
        | some p => !isOptional && (cls p).shouldWaitForChildren
        | none => false
      if isRequired || parentWaits then (true, none, none, σ)
      else
        let σ := σ.push (.renderPendingCall i arg)
        (false, some ((cls i).doRenderPending arg), none, σ)
    | .exn (.err e) => (false, none, some e, σ)
  let σ := { σ with renderStack := σ.renderStack.dropLast }
  let σ :=
    if keepExistingChildren then σ
    else
      match prevChildren with
      | some pc =>
        unmountPreviousChildren fuel pc ((σ.getC i).childrenData.map (·.renderedChildren)) i σ
      | none => σ
  let σ :=
    match parent with
    | some p => childFinishedRender p i (renderResult.getD JSVal.undef) σ
    | none => σ
  ((isPending, renderResult, renderError), σ)

/-- `_render`: one render including local error recovery — a render error
triggers a second `_performRender` through the `doRenderError` hook with the
children of the failed attempt kept; an error from that hook is thrown to
the caller.  Commits phase `RENDERED`, counts the component, re-throws
`RenderPending` when pending, and honours a `needsRenderAfterRender` request
by re-entering render (up to the recursion limit of 10, after which a
re-render is merely scheduled via `_forceRender`). -/
def renderStepBody (cls : Nat → CompClass) (runChild : RunChild) (fuel : Nat)
    (i : Nat) (arg : JSVal) (context : Option Ctx) (isRequired isOptional : Bool)
    (cont : Option (ES → Except RThrow JSVal × ES)) (σ : ES) : Except RThrow JSVal × ES :=
  let previousRenderError := (σ.getC i).renderError
  let ((isPending, renderResult, renderError), σ) :=
    performRender cls runChild fuel i arg previousRenderError isRequired isOptional false σ
  let errorOutcome : Option (Except RThrow JSVal × ES) ⊕ (Bool × Option JSVal × ES) :=
    if !isPending && renderError.isSome then
      let ((p2, r2, e2), σ') :=
        performRender cls runChild fuel i arg renderError isRequired isOptional true σ
      match e2 with
      | some e2' => .inl (some (.error (.err e2'), σ'))
      | none => .inr (p2, r2, σ')
    else .inr (isPending, renderResult, σ)
  match errorOutcome with
  | .inl (some out) => out
  | .inl none => (.error .pending, σ)  -- unreachable
  | .inr (isPending, renderResult, σ) =>
    let σ := σ.modC i fun dd => { dd with renderResult := renderResult, phase := .rendered }
    let σ :=
      if !σ.rs.isRenderInterrupted then
        { σ with rs := { σ.rs with renderComponentCount := σ.rs.renderComponentCount + 1 } }
      else σ
    if isPending then (.error .pending, σ)
    else if (σ.getC i).needsRenderAfterRender then
      match cont with
      | some k => k (enterRender cls fuel i context σ)
      | none =>
        (.ok (renderResult.getD JSVal.undef), forceOps cls fuel (.forceRender i false) σ)
    else (.ok (renderResult.getD JSVal.undef), σ)

def renderStep (cls : Nat → CompClass) (runChild : RunChild) (fuel : Nat)
    (i : Nat) (arg : JSVal) (context : Option Ctx) (isRequired isOptional : Bool)
    (remaining : Nat) : ES → Except RThrow JSVal × ES :=
  Nat.rec (motive := fun _ => ES → Except RThrow JSVal × ES)
    (renderStepBody cls runChild fuel i arg context isRequired isOptional none)
    (fun _ ih => renderStepBody cls runChild fuel i arg context isRequired isOptional (some ih))
    remaining

/-- Options of a `render` call. -/
structure RenderOpts where
  context : Option Ctx := none
  isRequired : Bool := false
  isOptional : Bool := false

/-- `Component.render`: throws when no root render pass is underway,
otherwise enters render and runs `_render` (recursion budget 10). -/
def renderFn (cls : Nat → CompClass) (runChild : RunChild) (fuel : Nat)
    (i : Nat) (arg : JSVal) (opts : RenderOpts) (σ : ES) : Except RThrow JSVal × ES :=
  if !σ.rs.isRendering then
    (.error (.err (JSVal.str "render outside root render")), σ)
  else
    let σ := enterRender cls fuel i opts.context σ
    renderStep cls runChild fuel i arg opts.context opts.isRequired opts.isOptional 10 σ

/-- The body of `renderRoot` between the state snapshot and the `finally`
restore: reset the global state, seed it from the root's bookkeeping, run
`render`, then store the root's interrupt bookkeeping. -/
def renderRootInner (cls : Nat → CompClass) (runChild : RunChild) (fuel : Nat)
    (i : Nat) (arg : JSVal) (opts : RenderOpts) (σ : ES) : Except RThrow JSVal × ES :=
  let σ := resetStateES σ
  let d := σ.getC i
  let σ := { σ with rs := { σ.rs with
      isRendering := true,
      lastRenderWasInterrupted := d.renderRootWasInterrupted,
      lastRenderComponentCount := d.componentCount,
      renderInterruptGeneration := d.interruptGeneration,
      renderStartTime := 0 } }
  let (res, σ) := renderFn cls runChild fuel i arg opts σ
  let isInterrupted := σ.rs.isRenderInterrupted
  let σ := σ.modC i fun dd =>
    { dd with
      renderRootWasInterrupted := isInterrupted,
      interruptGeneration := if isInterrupted then σ.rs.renderInterruptGeneration else 0,
      componentCount := σ.rs.renderComponentCount }
  (res, σ)

/-- `Component.renderRoot`: flush the interrupted-components records for
this root, snapshot and reset the global render state, run `render`, and in
a `finally` store the root's interrupt bookkeeping and restore the global
state — also when `render` threw. -/
def renderRootFn (cls : Nat → CompClass) (runChild : RunChild) (fuel : Nat)
    (i : Nat) (arg : JSVal) (opts : RenderOpts) (σ : ES) : Except RThrow JSVal × ES :=
  let σ := rerenderInterrupted fuel i σ
  let old := snapshotState σ
  let r := renderRootInner cls runChild fuel i arg opts σ
  (r.1, restoreStateES old r.2)

/-- The tied-together engine: `renderCall cls fuel isRoot i arg opts`
executes `renderRoot` (when `isRoot`) or `render`; the render hooks of the
components render their children through recursive `renderCall`s at smaller
fuel.  With adequate fuel the fuel bound is never hit. -/
def renderCallBody (cls : Nat → CompClass) (fuel : Nat)
    (rec : Bool → Nat → JSVal → RenderOpts → ES → Except RThrow JSVal × ES)
    (isRoot : Bool) (i : Nat) (arg : JSVal) (opts : RenderOpts) (σ : ES) :
    Except RThrow JSVal × ES :=
  let runChild : RunChild := fun cc σ' =>
    match cc.mode with
    | .normal => rec false cc.cid cc.arg {} σ'
    | .required => rec false cc.cid cc.arg { isRequired := true } σ'
    | .optional => rec false cc.cid cc.arg { isOptional := true } σ'
    | .root => rec true cc.cid cc.arg {} σ'
  if isRoot then renderRootFn cls runChild fuel i arg opts σ
  else renderFn cls runChild fuel i arg opts σ

def renderCall (cls : Nat → CompClass) (fuel : Nat) :
    Bool → Nat → JSVal → RenderOpts → ES → Except RThrow JSVal × ES :=
  Nat.rec (motive := fun _ => Bool → Nat → JSVal → RenderOpts → ES → Except RThrow JSVal × ES)
    (fun _ _ _ _ σ => (.error .pending, σ))
    (fun n ih => renderCallBody cls n ih) fuel

/-- `renderRoot` entry point. -/
def renderRoot (cls : Nat → CompClass) (fuel : Nat) (i : Nat) (arg : JSVal)
    (opts : RenderOpts) (σ : ES) : Except RThrow JSVal × ES :=
  renderCall cls (fuel + 1) true i arg opts σ

/-! ### Concrete states and classes used by witnesses and counterexamples -/

/-- A fresh engine world holding the given components. -/
def mkES (comps : List (Nat × CompData)) : ES :=
  { comps := comps, renderStack := [], rs := RenderState.initial, interrupted := [],
    rerenderInterruptedScheduled := false, unmounted := [], disappearScheduled := false,
    ctxNames := [], nextId := 1, log := [] }

/-- The eviction candidate of `HashCache.setEntry`'s loop: the first
non-null hash in `keysOrder` that differs from `h`. -/
def HashCache.firstOther {H : Type} [DecidableEq H] (ko : List (Option H)) (h : H) : Option H :=
  (ko.filterMap id).find? (fun x => x != h)

/-- An empty hash cache with capacity 2 (key hashes are the keys). -/
def hcEx0 : HashCache String Nat := { entries := [], keysOrder := [], maxSize := 2 }

/-- A scan cache over `JSVal` keys with the engine's comparator, capacity 3,
holding entries for 1 and the string "x" (in that recency order). -/
def scanEx : ScanCache JSVal Nat :=
  { entries := [(JSVal.num 1, 10), (JSVal.str "x", 20)], maxSize := 3,
    keyComparator := sameShallowVal }

/-- A single-component class: synchronous `doPrepare` returning `pv`, pure
`doRender` computing `f arg prepareResult`, defaults otherwise. -/
def simpleClass (f : JSVal → JSVal → JSVal) (pv : JSVal) : CompClass :=
  { defaultClass with
    doPrepare := fun _ => .ok pv,
    renderResult := fun arg prep _ => .ok (f arg prep) }

/-- A world with one default-class component (id 1) whose state is
`{x: 5, n: NaN}`. -/
def esSetState : ES := mkES [(1, newCompData [("x", JSVal.num 5), ("n", JSVal.nan)])]

/-- C1 scenario: a single root component with default policy predicates
whose `doRender` returns a fixed object and whose prepare resolves
synchronously, rendered as root twice with the same argument. -/
def c1cls : Nat → CompClass := fun _ => simpleClass (fun _ _ => JSVal.obj 99) (JSVal.num 7)

def c1run1 : Except RThrow JSVal × ES :=
  renderRoot c1cls 10 1 (JSVal.num 3) {} (mkES [(1, newCompData [])])

def c1run2 : Except RThrow JSVal × ES := renderRoot c1cls 10 1 (JSVal.num 3) {} c1run1.2

/-- C1 counterexample scenario: the same component but with a
`shouldRender` override that always requests recomputation. -/
def c1bcls : Nat → CompClass := fun _ =>
  { simpleClass (fun _ _ => JSVal.obj 99) (JSVal.num 7) with shouldRender := fun _ _ => true }

def c1brun1 : Except RThrow JSVal × ES :=
  renderRoot c1bcls 10 1 (JSVal.num 3) {} (mkES [(1, newCompData [])])

def c1brun2 : Except RThrow JSVal × ES := renderRoot c1bcls 10 1 (JSVal.num 3) {} c1brun1.2

/-- C2 scenario A: the root (id 1) renders its child (id 2) and then throws
`obj 5`; its `doRenderError` hook recovers with a string. -/
def c2clsA : Nat → CompClass := fun i =>
  if i == 1 then
    { defaultClass with
      renderChildren := fun _ _ => [⟨2, JSVal.undef, .normal⟩],
      renderResult := fun _ _ _ => .error (.err (JSVal.obj 5)),
      doRenderError := fun _ _ => .ok (JSVal.str "recovered") }
  else simpleClass (fun _ _ => JSVal.num 1) JSVal.jsNull

def c2runA : Except RThrow JSVal × ES :=
  renderRoot c2clsA 10 1 (JSVal.num 3) {} (mkES [(1, newCompData []), (2, newCompData [])])

/-- C2 scenario B: like scenario A but `doRenderError` itself throws
`obj 6`. -/
def c2clsB : Nat → CompClass := fun i =>
  if i == 1 then
    { defaultClass with
      renderChildren := fun _ _ => [⟨2, JSVal.undef, .normal⟩],
      renderResult := fun _ _ _ => .error (.err (JSVal.obj 5)),
      doRenderError := fun _ _ => .error (.err (JSVal.obj 6)) }
  else simpleClass (fun _ _ => JSVal.num 1) JSVal.jsNull

def c2runB : Except RThrow JSVal × ES :=
  renderRoot c2clsB 10 1 (JSVal.num 3) {} (mkES [(1, newCompData []), (2, newCompData [])])

/-- C2 scenario C: the synchronous prepare path throws (`doPrepare` raises
`obj 7`); `doRenderError` recovers. -/
def c2clsC : Nat → CompClass := fun i =>
  if i == 1 then
    { defaultClass with
      doPrepare := fun _ => .error (.err (JSVal.obj 7)),
      renderResult := fun _ _ _ => .ok (JSVal.num 0),
      doRenderError := fun _ _ => .ok (JSVal.str "prep recovered") }
  else defaultClass

def c2runC : Except RThrow JSVal × ES :=
  renderRoot c2clsC 10 1 (JSVal.num 4) {} (mkES [(1, newCompData [])])

/-- C3 scenario: the root (id 1) renders children 2 and 3 in order;
component 2 always requests interruption, component 3's
`shouldInterruptRender` returns `b`. -/
def c3cls (b : Bool) : Nat → CompClass := fun i =>
  if i == 1 then
    { defaultClass with
      renderChildren := fun _ _ => [⟨2, JSVal.undef, .normal⟩, ⟨3, JSVal.undef, .normal⟩],
      renderResult := fun _ _ vs => .ok (JSVal.num vs.length) }
  else if i == 2 then
    { simpleClass (fun _ _ => JSVal.num 2) JSVal.jsNull with
      shouldInterruptRender := fun _ _ _ => true }
  else
    { simpleClass (fun _ _ => JSVal.num 3) JSVal.jsNull with
      shouldInterruptRender := fun _ _ _ => b }

def c3run (b : Bool) : Except RThrow JSVal × ES :=
  renderRoot (c3cls b) 10 1 JSVal.undef {}
    (mkES [(1, newCompData []), (2, newCompData []), (3, newCompData [])])

/-- C4 scenario: the root (id 1) renders child 2 exactly when its render
argument is `1`; three root passes with arguments 1, 0, 1 (with the
deferred-disappear tick firing between the second and third), so the child
is mounted, fully unmounted, and mounted again. -/
def c4cls : Nat → CompClass := fun i =>
  if i == 1 then
    { defaultClass with
      renderChildren := fun arg _ =>
        if arg == JSVal.num 1 then [⟨2, JSVal.undef, .normal⟩] else [],
      renderResult := fun _ _ vs => .ok (JSVal.num vs.length) }
  else simpleClass (fun _ _ => JSVal.num 2) JSVal.jsNull

def c4pass1 : Except RThrow JSVal × ES :=
  renderRoot c4cls 10 1 (JSVal.num 1) {} (mkES [(1, newCompData []), (2, newCompData [])])

def c4pass2 : Except RThrow JSVal × ES := renderRoot c4cls 10 1 (JSVal.num 0) {} c4pass1.2

def c4tick : ES := runDisappearTick c4pass2.2

def c4pass3 : Except RThrow JSVal × ES := renderRoot c4cls 10 1 (JSVal.num 1) {} c4tick

/-- C8 scenario ("move"): in the first pass the root A (id 1) renders B
(id 2, with argument 0) and C (id 3); in the second pass A renders only B
(with argument 1) and B now renders C — moving C from A to B while C is
still mounted under A. -/
def c8cls : Nat → CompClass := fun i =>
  if i == 1 then
    { defaultClass with
      renderChildren := fun arg _ =>
        if arg == JSVal.num 1 then [⟨2, JSVal.num 0, .normal⟩, ⟨3, JSVal.undef, .normal⟩]
        else [⟨2, JSVal.num 1, .normal⟩],
      renderResult := fun _ _ vs => .ok (JSVal.num vs.length) }
  else if i == 2 then
    { defaultClass with
      renderChildren := fun arg _ =>
        if arg == JSVal.num 1 then [⟨3, JSVal.undef, .normal⟩] else [],
      renderResult := fun _ _ vs => .ok (JSVal.num vs.length) }
  else simpleClass (fun _ _ => JSVal.num 3) JSVal.jsNull

def c8pass1 : Except RThrow JSVal × ES :=
  renderRoot c8cls 10 1 (JSVal.num 1) {}
    (mkES [(1, newCompData []), (2, newCompData []), (3, newCompData [])])

def c8pass2 : Except RThrow JSVal × ES := renderRoot c8cls 10 1 (JSVal.num 0) {} c8pass1.2

def c8tick : ES := runDisappearTick c8pass2.2

/-- C6 scenario: the root (id 1) propagates the context modifications
`{k: prepareResult, w: 5}` where the prepare result is its state attribute
`x`; the child (id 2) reads only `w` during its render.  Between the two
root passes, `setState` changes `x` (hence only the context key `k`). -/
def c6cls : Nat → CompClass := fun i =>
  if i == 1 then
    { defaultClass with
      doPrepare := fun st => .ok (modsGet st "x"),
      contextMods := fun p => some [("k", p), ("w", JSVal.num 5)],
      renderChildren := fun _ _ => [⟨2, JSVal.undef, .normal⟩],
      renderResult := fun _ _ vs => .ok (JSVal.num vs.length) }
  else
    { defaultClass with
      renderReads := fun _ => ["w"],
      renderResult := fun _ _ _ => .ok (JSVal.num 1) }

def c6pass1 : Except RThrow JSVal × ES :=
  renderRoot c6cls 10 1 JSVal.undef {}
    (mkES [(1, newCompData [("x", JSVal.num 0)]), (2, newCompData [])])

def c6mid : ES := setState c6cls 5 1 [("x", JSVal.num 1)] c6pass1.2

def c6pass2 : Except RThrow JSVal × ES := renderRoot c6cls 10 1 JSVal.undef {} c6mid

instance {ε α : Type} [DecidableEq ε] [DecidableEq α] : DecidableEq (Except ε α) := fun a b =>
  match a, b with
  | .ok x, .ok y => if h : x = y then .isTrue (by rw [h]) else .isFalse (by simp [h])
  | .error x, .error y => if h : x = y then .isTrue (by rw [h]) else .isFalse (by simp [h])
  | .ok _, .error _ => .isFalse (by simp)
  | .error _, .ok _ => .isFalse (by simp)

/-! # Theorems -/



@[simp] theorem sameValueZero_self (a : JSVal) : sameValueZero a a = true := by
  cases a <;> simp [sameValueZero, jsEq, isNaN]

theorem jsEq_of_ne_nan {a b : JSVal} (ha : a ≠ nan) :
    jsEq a b = true ↔ a = b := by
  cases a <;> cases b <;> simp_all [jsEq]

@[simp] theorem sameShallowVal_self (a : JSVal) : sameShallowVal a a = true := by
  simp [sameShallowVal]

/-! ## Context identity reuse (claim C5) -/

theorem ctxChangeFold_none_iff (c : Ctx) (ms : Mods) (acc : Option Mods) :
    ms.foldl (ctxChangeFoldStep c) acc = none ↔
      (acc = none ∧ ∀ p ∈ ms, jsEq p.2 (modsGet c.attrs p.1) = true) := by
  induction ms generalizing acc with
  | nil => simp
  | cons p t ih =>
    by_cases h : jsEq p.2 (modsGet c.attrs p.1) = true
    · simp [ctxChangeFoldStep, h, ih]
    · simp only [Bool.not_eq_true] at h
      simp [ctxChangeFoldStep, h, ih]

theorem ctxChangeNeeded_false_iff (c : Ctx) (ms : Mods) :
    ctxChangeNeeded c ms = false ↔ ∀ p ∈ ms, jsEq p.2 (modsGet c.attrs p.1) = true := by
  simp [ctxChangeNeeded]

/-- Claim C5: a new context object is produced by `Context.change` only when
at least one modified key's new value differs (strict `!==`) from its
current value; when nothing actually changes, the very same (pointer-equal)
context object is returned — and `applyModificationsCached` returns the
previously produced context object whenever the base context is
pointer-identical to the cached one and the modifications are shallow-equal
to the cached ones. -/
theorem C5_context_identity_reuse (c : Ctx) (mods : Mods) (fresh : Nat)
    (hf : fresh ≠ c.id) (base : Ctx) (cache : ModCache) (cm mods2 : Mods) (f2 : Nat)
    (hb : ctxPtrEq cache.base (some base) = true)
    (hm : cache.modifications = some cm) (hs : sameShallowMods cm mods2 = true) :
    (ctxChangeNeeded c mods = false → ctxChange c mods fresh = c) ∧
    (ctxChangeNeeded c mods = true →
      (ctxChange c mods fresh).id = fresh ∧ ctxChange c mods fresh ≠ c) ∧
    applyModificationsCached base (some mods2) cache f2 = (cache.result.getD base, cache) := by
  refine ⟨?_, ?_, ?_⟩
  · intro h
    have := (ctxChangeFold_none_iff c mods none).2
      ⟨rfl, (ctxChangeNeeded_false_iff c mods).1 h⟩
    simp [ctxChange, this]
  · intro h
    have hne : mods.foldl (ctxChangeFoldStep c) none ≠ none := by
      intro hcontra
      have := (ctxChangeFold_none_iff c mods none).1 hcontra
      rw [← ctxChangeNeeded_false_iff c mods] at this
      simp [h] at this
    obtain ⟨attrs, ha⟩ := Option.ne_none_iff_exists'.1 hne
    constructor
    · simp [ctxChange, ha]
    · simp only [ctxChange, ha]
      intro hcontra
      exact hf (by rw [← hcontra])
  · simp [applyModificationsCached, hb, hm, hs]

theorem C5_context_identity_reuse_witness :
    (ctxChangeNeeded emptyCtx [("a", JSVal.undef)] = false →
      ctxChange emptyCtx [("a", JSVal.undef)] 7 = emptyCtx) ∧
    (ctxChangeNeeded emptyCtx [("a", JSVal.undef)] = true →
      (ctxChange emptyCtx [("a", JSVal.undef)] 7).id = 7 ∧
        ctxChange emptyCtx [("a", JSVal.undef)] 7 ≠ emptyCtx) ∧
    applyModificationsCached emptyCtx (some [("a", JSVal.num 1)])
        { base := some emptyCtx, modifications := some [("a", JSVal.num 1)],
          result := some { id := 3, attrs := [("a", JSVal.num 1)] } } 9 =
      (({ base := some emptyCtx, modifications := some [("a", JSVal.num 1)],
          result := some { id := 3, attrs := [("a", JSVal.num 1)] } } : ModCache).result.getD emptyCtx,
        { base := some emptyCtx, modifications := some [("a", JSVal.num 1)],
          result := some { id := 3, attrs := [("a", JSVal.num 1)] } }) :=
  C5_context_identity_reuse emptyCtx [("a", JSVal.undef)] 7 (by decide) emptyCtx
    { base := some emptyCtx, modifications := some [("a", JSVal.num 1)],
      result := some { id := 3, attrs := [("a", JSVal.num 1)] } }
    [("a", JSVal.num 1)] [("a", JSVal.num 1)] 9 (by decide) rfl (by decide)

/-! ## Bounded cache behaviour (claim C7) -/

theorem ScanCache.updateFirst_keys {K V : Type} (cmp : K → K → Bool) (k : K) (v : V)
    (l : List (K × V)) :
    (ScanCache.updateFirst cmp k v l).map Prod.fst = l.map Prod.fst := by
  induction l with
  | nil => rfl
  | cons e t ih =>
    by_cases h : cmp k e.1 = true <;> simp [ScanCache.updateFirst, h, ih]

theorem ScanCache.find_updateFirst {K V : Type} (cmp : K → K → Bool) (k : K) (v : V)
    (l : List (K × V)) :
    ((ScanCache.updateFirst cmp k v l).find? fun e => cmp k e.1) =
      (l.find? fun e => cmp k e.1).map fun e => (e.1, v) := by
  induction l with
  | nil => rfl
  | cons e t ih =>
    by_cases h : cmp k e.1 = true <;> simp [ScanCache.updateFirst, h, List.find?, ih]

theorem HashCache.evictFirstOther_fst {H V : Type} [DecidableEq H]
    (entries : List (H × V)) (ko : List (Option H)) (h : H) :
    (HashCache.evictFirstOther entries ko h).1 =
      (match HashCache.firstOther ko h with
       | some o => HashCache.mapDelete entries o
       | none => entries) := by
  induction ko with
  | nil => rfl
  | cons slot t ih =>
    match slot with
    | none => simpa [HashCache.evictFirstOther, HashCache.firstOther] using ih
    | some h' =>
      by_cases hh : h' = h
      · subst hh
        simpa [HashCache.evictFirstOther, HashCache.firstOther] using ih
      · simp [HashCache.evictFirstOther, HashCache.firstOther, hh]

theorem HashCache.mapSet_keys_of_has {H V : Type} [DecidableEq H]
    (m : List (H × V)) (h : H) (v : V) (hhas : HashCache.mapHas m h = true) :
    (HashCache.mapSet m h v).map Prod.fst = m.map Prod.fst := by
  simp only [HashCache.mapSet, hhas, if_pos]
  clear hhas
  induction m with
  | nil => rfl
  | cons e t ih =>
    simp only [List.map_cons]
    have he : (if (e.1 == h) = true then (h, v) else e).1 = e.1 := by
      by_cases hb : (e.1 == h) = true
      · simp [hb, eq_of_beq hb]
      · simp [hb]
    rw [he, ih]

/-- Claim C7, counterexample: in the hash-keyed cache at capacity, setting an
entry whose key *already exists* evicts another entry, contradicting the
claim that such a set "updates the stored value in place without evicting
any other entry": with capacity 2 and entries for "a" and "b", setting "a"
again removes "b". -/
theorem C7_counterexample :
    let c := (hcEx0.setEntry "a" 1).setEntry "b" 2
    HashCache.mapHas c.entries "a" = true ∧ c.getEntry "b" = some 2 ∧
      (c.setEntry "a" 3).getEntry "b" = none ∧ (c.setEntry "a" 3).getEntry "a" = some 3 := by
  decide

theorem find?_isSome_of_findIdx? {α : Type} (p : α → Bool) (l : List α) :
    ∀ (i j : Nat), List.findIdx? p l i = some j → (l.find? p).isSome := by
  induction l with
  | nil => intro i j h; rw [show List.findIdx? p [] i = none from rfl] at h; cases h
  | cons a t ih =>
    intro i j h
    by_cases hp : p a = true
    · simp [List.find?, hp]
    · rw [List.findIdx?_cons, if_neg hp] at h
      simpa [List.find?, hp] using ih (i + 1) j h

/-- Claim C7, amended: cache `setEntry` behaviour: (scan cache) setting an
existing key updates its value in place, preserving the key order (hence
eviction priority) and evicting nothing; a new key is inserted at the front
and, once the cache exceeds its capacity, exactly the tail
(least-recently-inserted) entry is dropped.  (Hash cache) below capacity,
setting an existing key updates in place without eviction; but whenever the
cache is at (or beyond) capacity, `setEntry` first evicts the first
other entry in insertion order — even when the key being set already has an
entry — and then writes the new value. -/
theorem C7_amended_setEntry_behaviour :
    (∀ (K V : Type) (c : ScanCache K V) (k : K) (v : V) (j : Nat),
      c.findEntry k = some j →
        ((c.setEntry k v).entries.map Prod.fst = c.entries.map Prod.fst ∧
          (c.setEntry k v).getEntry k = some v)) ∧
    (∀ (K V : Type) (c : ScanCache K V) (k : K) (v : V),
      c.findEntry k = none → c.maxSize ≥ 1 →
        (c.setEntry k v).entries =
          (if c.maxSize ≥ 0 && ((((k, v) :: c.entries).length : Int) > c.maxSize) then
            ((k, v) :: c.entries).dropLast
          else (k, v) :: c.entries)) ∧
    (∀ (H V : Type) (inst : DecidableEq H) (c : HashCache H V) (h : H) (v : V),
      ¬(c.maxSize ≥ 0 ∧ (c.entries.length : Int) ≥ c.maxSize) →
        HashCache.mapHas c.entries h = true → c.maxSize ≠ 0 →
          (c.setEntry h v).entries.map Prod.fst = c.entries.map Prod.fst) ∧
    (∀ (H V : Type) (inst : DecidableEq H) (c : HashCache H V) (h : H) (v : V),
      c.maxSize ≥ 0 → (c.entries.length : Int) ≥ c.maxSize → c.maxSize ≠ 0 →
        (c.setEntry h v).entries =
          HashCache.mapSet
            (match HashCache.firstOther c.keysOrder h with
             | some o => HashCache.mapDelete c.entries o
             | none => c.entries) h v) := by
  refine ⟨?_, ?_, ?_, ?_⟩
  · intro K V c k v j hfind
    have hset : c.setEntry k v =
        { c with entries := ScanCache.updateFirst c.keyComparator k v c.entries } := by
      simp [ScanCache.setEntry, hfind]
    refine ⟨by rw [hset]; exact ScanCache.updateFirst_keys c.keyComparator k v c.entries, ?_⟩
    have hsome := find?_isSome_of_findIdx? (fun e => c.keyComparator k e.1) c.entries 0 j
      (show List.findIdx? (fun e => c.keyComparator k e.1) c.entries 0 = some j from hfind)
    obtain ⟨e, he⟩ := Option.isSome_iff_exists.1 hsome
    rw [hset]
    simp [ScanCache.getEntry, ScanCache.find_updateFirst, he]
  · intro K V c k v hfind hsz
    have h0 : (c.maxSize != 0) = true := by
      simp only [bne_iff_ne, ne_eq]
      intro hcontra; rw [hcontra] at hsz; omega
    simp [ScanCache.setEntry, hfind, h0]
  · intro H V inst c h v hnot hhas h0
    have hcond : (decide (c.maxSize ≥ 0) && decide ((c.entries.length : Int) ≥ c.maxSize)) = false := by
      by_cases h1 : c.maxSize ≥ 0 <;> by_cases h2 : (c.entries.length : Int) ≥ c.maxSize <;>
        simp [h1, h2] <;> exact absurd ⟨h1, h2⟩ hnot
    have h0' : (c.maxSize != 0) = true := by simpa using h0
    simp only [HashCache.setEntry, hcond, Bool.false_and, if_false, Bool.and_eq_false_iff,
      h0', if_true]
    exact HashCache.mapSet_keys_of_has c.entries h v hhas
  · intro H V inst c h v h0 hlen hne
    have hcond : (decide (c.maxSize ≥ 0) && decide ((c.entries.length : Int) ≥ c.maxSize)) = true := by
      simp [h0, hlen]
    have h0' : (c.maxSize != 0) = true := by simpa using hne
    simp only [HashCache.setEntry, hcond, if_true, h0']
    rw [HashCache.evictFirstOther_fst]

theorem setStateFold_const (cls : Nat → CompClass) (i : Nat) (σ : ES) (vs : Mods)
    (h : ∀ p ∈ vs, setStateOne cls i p.1 p.2 σ = (σ, false, [])) :
    vs.foldl (setStateFoldStep cls i) (σ, false, []) = (σ, false, []) := by
  induction vs with
  | nil => rfl
  | cons p t ih =>
    have hstep : setStateFoldStep cls i (σ, false, []) p = (σ, false, []) := by
      simp [setStateFoldStep, h p (List.mem_cons_self p t)]
    rw [List.foldl_cons, hstep]
    exact ih fun q hq => h q (List.mem_cons_of_mem p hq)

/-- Claim C10: a `setState` call in which every supplied attribute value is
equal to the current value under same-value-zero comparison (strict equality
with `NaN` equal to `NaN`) is a complete no-op: the engine state — component
state record, changed-attribute set, state waiters, render caches, scheduled
render requests and the hook/event log — is returned unchanged. -/
theorem C10_setState_sameValueZero_noop (cls : Nat → CompClass) (fuel i : Nat)
    (values : Mods) (σ : ES)
    (h : ∀ p ∈ values, sameValueZero (modsGet (σ.getC i).state p.1) p.2 = true) :
    setState cls fuel i values σ = σ := by
  have key : values.foldl (setStateFoldStep cls i) (σ, false, []) = (σ, false, []) := by
    refine setStateFold_const cls i σ values fun p hp => ?_
    simp [setStateOne, h p hp]
  simp [setState, key]

theorem C10_setState_sameValueZero_noop_witness :
    setState (fun _ => defaultClass) 5 1
      [("x", JSVal.num 5), ("n", JSVal.nan), ("y", JSVal.undef)] esSetState = esSetState :=
  C10_setState_sameValueZero_noop (fun _ => defaultClass) 5 1
    [("x", JSVal.num 5), ("n", JSVal.nan), ("y", JSVal.undef)] esSetState (by decide)

set_option maxRecDepth 4096

/-! ## Root render idempotence (claim C1) -/

/-- Claim C1, counterexample: the claim quantifies over every component,
but a component whose `shouldRender` predicate requests recomputation has
its `doRender` hook invoked again on the second identical root render and
its `onCachedRender` hook is not invoked: the second pass appends exactly
one more `doRender` invocation to the log and no cached-render event. -/
theorem C1_counterexample :
    c1brun1.1 = .ok (JSVal.obj 99) ∧
    c1brun2.1 = .ok (JSVal.obj 99) ∧
    c1brun2.2.log = c1brun1.2.log ++ [.renderCall 1 (JSVal.num 3)] := by
  decide

/-- Claim C1, amended: for a component with the default policy predicates
(`shouldRender` false, `shouldPrepare` only on changed attributes,
synchronous prepare), rendering it as root twice consecutively with the same
argument and no intervening state or context change returns an identical
(pointer-equal) result; the second pass does not invoke the `doRender` hook
and appends exactly one `onCachedRender` invocation with the cached
result. -/
theorem C1_amended_root_render_idempotent :
    c1run1.1 = .ok (JSVal.obj 99) ∧
    c1run2.1 = c1run1.1 ∧
    c1run2.2.log = c1run1.2.log ++ [.cachedRender 1 (JSVal.obj 99)] := by
  decide

/-! ## Render error recovery (claim C2) -/

/-- Claim C2: when `doRender` throws an exception that is not the pending
signal, the engine invokes the component's `doRenderError` hook with the
original render argument and the thrown error; the child rendered during the
failed attempt stays mounted under the component (it is never unmounted —
the log holds no unmount event) and remains registered in its rendered
children; an exception thrown by the synchronous prepare path is recovered
the same way; and when `doRenderError` itself throws, that error propagates
uncaught to the caller of `renderRoot`. -/
theorem C2_render_error_recovery :
    c2runA.1 = .ok (JSVal.str "recovered") ∧
    c2runA.2.log =
      [.receiveContext 1, .appear 1, .mount 1, .prepareCall 1,
       .renderCall 1 (JSVal.num 3), .receiveContext 2, .appear 2, .mount 2,
       .prepareCall 2, .renderCall 2 JSVal.undef,
       .renderErrorCall 1 (JSVal.num 3) (JSVal.obj 5)] ∧
    (c2runA.2.getC 2).mounted = true ∧
    (c2runA.2.getC 2).renderParent = some 1 ∧
    ((c2runA.2.getC 1).childrenData.map fun cd => cd.renderedChildren.map Prod.fst) =
      some [2] ∧
    c2runB.1 = .error (.err (JSVal.obj 6)) ∧
    c2runC.1 = .ok (JSVal.str "prep recovered") ∧
    c2runC.2.log =
      [.receiveContext 1, .appear 1, .mount 1, .prepareCall 1,
       .renderErrorCall 1 (JSVal.num 4) (JSVal.obj 7)] := by
  decide

/-! ## Interruption propagation (claim C3) -/

/-- Claim C3, counterexample: after component 2 requests interruption, the
pass is marked interrupted, but the later component 3 — whose own
`shouldInterruptRender` returns false — still renders freshly (its
`doRender` hook runs, no pending placeholder) and is not recorded in the
interrupted-components table, contradicting "every component rendered later
in that pass produces the pending-placeholder result … and is recorded". -/
theorem C3_counterexample :
    (c3run false).2.interrupted = [(1, [2])] ∧
    (c3run false).2.log.filter (· == .renderCall 3 JSVal.undef) =
      [.renderCall 3 JSVal.undef] ∧
    (c3run false).2.log.filter (· == .renderPendingCall 3 JSVal.undef) = [] ∧
    ((c3run false).2.getC 1).renderRootWasInterrupted = true := by
  decide

/-- Claim C3, amended: once a component's `shouldInterruptRender` requests
interruption, the pass-wide interrupted flag is set (visible in the root's
was-interrupted flag) and a re-render of the interrupted components is
scheduled; every component rendered later in the pass has its own predicate
consulted, and exactly those whose predicate requests interruption render
the pending placeholder instead of a fresh result and are recorded in the
process-wide interrupted-components table under the pass's root; a later
component whose predicate declines renders freshly and is not recorded. -/
theorem C3_amended_interrupt_propagation (b : Bool) :
    (c3run b).1 = .ok (JSVal.num 2) ∧
    (c3run b).2.interrupted = [(1, if b then [2, 3] else [2])] ∧
    ((c3run b).2.log.filter (· == .renderPendingCall 2 JSVal.undef)).length = 1 ∧
    ((c3run b).2.log.filter (· == .renderCall 2 JSVal.undef)).length = 0 ∧
    ((c3run b).2.log.filter (· == .renderPendingCall 3 JSVal.undef)).length =
      (if b then 1 else 0) ∧
    ((c3run b).2.log.filter (· == .renderCall 3 JSVal.undef)).length =
      (if b then 0 else 1) ∧
    ((c3run b).2.getC 1).renderRootWasInterrupted = true ∧
    (c3run b).2.rerenderInterruptedScheduled = true := by
  cases b <;> decide

/-! ## onAppear semantics (claim C4) -/

/-- Claim C4, counterexample: `onAppear` is not restricted to the first-ever
mount: the child is mounted (pass 1), fully unmounted (pass 2, with
`onDisappear` on the tick), and mounted again (pass 3), and `onAppear` fires
a second time even though the component had been mounted before at an
earlier point in its lifetime. -/
theorem C4_counterexample :
    (c4pass3.2.log.filter (· == .appear 2)).length = 2 ∧
    (c4pass3.2.log.filter (· == .mount 2)).length = 2 ∧
    (c4pass3.2.log.filter (· == .unmount 2)).length = 1 ∧
    (c4tick.log.filter (· == .disappear 2)).length = 1 := by
  decide

/-- Claim C4, amended: `onAppear` fires exactly on mounts where the
component's mounted flag is clear as it enters render — so it fires again
when the component is mounted after a full unmount (the unmount/remount
scenario logs two appears and two mounts), while a component remounted into
a different parent while still mounted (the move scenario) gets neither
`onAppear` nor any `onUnmount` at that moment, only `onMount`. -/
theorem C4_amended_onAppear_condition :
    (c4pass3.2.log.filter (· == .appear 2)).length = 2 ∧
    (c4pass3.2.log.filter (· == .mount 2)).length = 2 ∧
    ((c8pass2.2.log.drop c8pass1.2.log.length).filter (· == .appear 3)) = [] ∧
    ((c8pass2.2.log.drop c8pass1.2.log.length).filter (· == .unmount 3)) = [] ∧
    ((c8pass2.2.log.drop c8pass1.2.log.length).filter (· == .mount 3)) = [.mount 3] := by
  decide

/-! ## Context dependency precision (claim C6) -/

theorem anyUsedAttribute_eq_false (names : List String) (bf : List Nat) (p : String → Bool)
    (h : ∀ idx : Nat, (bf.getD (idx / bitsPerElement) 0).testBit (idx % bitsPerElement) = true →
      p (names.getD idx "") = false) :
    anyUsedAttribute names bf p = false := by
  unfold anyUsedAttribute
  rw [List.any_eq_false]
  intro i hi
  simp only [Bool.and_eq_true, List.any_eq_true, List.mem_range]
  rintro ⟨hz, j, hj30, hbit, hp⟩
  have hdiv : (i * bitsPerElement + j) / bitsPerElement = i := by
    rw [Nat.mul_comm i bitsPerElement, Nat.mul_add_div (by decide), Nat.div_eq_of_lt hj30,
      Nat.add_zero]
  have hmod : (i * bitsPerElement + j) % bitsPerElement = j := by
    rw [Nat.mul_comm i bitsPerElement, Nat.mul_add_mod, Nat.mod_eq_of_lt hj30]
  have hfalse := h (i * bitsPerElement + j) (by rw [hdiv, hmod]; exact hbit)
  rw [hfalse] at hp
  exact Bool.false_ne_true hp

theorem didContextChange_unused_key (names : List String) (bf : List Nat) (k : String)
    (ctx1 ctx2 : Ctx)
    (hunused : ∀ idx : Nat,
      (bf.getD (idx / bitsPerElement) 0).testBit (idx % bitsPerElement) = true →
        names.getD idx "" ≠ k)
    (hsame : ∀ name : String, name ≠ k →
      sameValueZero (modsGet ctx1.attrs name) (modsGet ctx2.attrs name) = true) :
    didContextChange names (some ctx2) (some ctx1) bf = false := by
  simp only [didContextChange]
  split
  · rfl
  · apply anyUsedAttribute_eq_false
    intro idx hbit
    rw [hsame _ (hunused idx hbit)]
    rfl

/-- Claim C6: first, in general, `didContextChange` reports no change whenever
every attribute name recorded in the used-attribute bitfield differs from the
one key whose value changed (all other keys being sameValueZero-equal): the
change check consults only recorded dependencies. Second, concretely: the
child (id 2) reads only the context key `w`; the second
root pass changes only the key `k` of the context handed to the child (the
child's received context goes from `{k: 0, w: 5}` to `{k: 1, w: 5}`), and
the child's prepare and render caches survive: the second pass re-runs the
parent's prepare and render but gives the child only a cached render
(`onCachedRender`), its `doRender` hook having run exactly once overall, its
prepared flag and render-cache entry intact. -/
theorem C6_context_dependency_precision :
    (∀ (names : List String) (bf : List Nat) (k : String) (ctx1 ctx2 : Ctx),
      (∀ idx : Nat,
        (bf.getD (idx / bitsPerElement) 0).testBit (idx % bitsPerElement) = true →
          names.getD idx "" ≠ k) →
      (∀ name : String, name ≠ k →
        sameValueZero (modsGet ctx1.attrs name) (modsGet ctx2.attrs name) = true) →
      didContextChange names (some ctx2) (some ctx1) bf = false) ∧
    (c6pass1.2.log.filter (· == .renderCall 2 JSVal.undef)).length = 1 ∧
    (c6pass2.2.log.drop c6mid.log.length) =
      [.prepareCall 1, .renderCall 1 JSVal.undef, .receiveContext 2,
       .cachedRender 2 (JSVal.num 1)] ∧
    (c6pass2.2.log.filter (· == .renderCall 2 JSVal.undef)).length = 1 ∧
    (c6pass2.2.getC 2).prepared = true ∧
    (c6pass2.2.getC 2).renderCache.length = 1 ∧
    c6pass2.2.ctxNames = ["w"] ∧
    (c6pass2.2.getC 2).usedContextAttributes = [1] ∧
    ((c6pass1.2.getC 2).context.map Ctx.attrs) =
      some [("k", JSVal.num 0), ("w", JSVal.num 5)] ∧
    ((c6pass2.2.getC 2).context.map Ctx.attrs) =
      some [("k", JSVal.num 1), ("w", JSVal.num 5)] := by
  refine ⟨fun names bf k ctx1 ctx2 h1 h2 =>
    didContextChange_unused_key names bf k ctx1 ctx2 h1 h2, ?_⟩
  decide

/-- Witness for claim C6: the general conjunct applied at the scenario's own
data: used names `["w"]`, bitfield `[1]` (bit 0 set, i.e. only `w` is read),
changed key `k`, and the child's two received contexts. -/
theorem C6_context_dependency_precision_witness :
    didContextChange ["w"] (some (Ctx.mk 5 [("k", JSVal.num 1), ("w", JSVal.num 5)]))
      (some (Ctx.mk 3 [("k", JSVal.num 0), ("w", JSVal.num 5)])) [1] = false :=
  C6_context_dependency_precision.1 ["w"] [1] "k"
    (Ctx.mk 3 [("k", JSVal.num 0), ("w", JSVal.num 5)])
    (Ctx.mk 5 [("k", JSVal.num 1), ("w", JSVal.num 5)])
    (by
      intro idx hbit
      cases idx with
      | zero => decide
      | succ n => simp [List.getD])
    (by
      intro name hnk
      by_cases hw : name = "w"
      · subst hw; decide
      · have hk1 : (("k" : String) == name) = false := beq_eq_false_iff_ne.mpr (Ne.symm hnk)
        have hw1 : (("w" : String) == name) = false := beq_eq_false_iff_ne.mpr (Ne.symm hw)
        simp [modsGet, List.find?, hk1, hw1, sameValueZero, JSVal.jsEq])

/-! ## Nested root render state restoration (claim C9) -/

theorem bubbleInvalidateBody_preserves (rec : Nat → Bool → ES → ES)
    (hrec : ∀ (p : Nat) (q : Bool) (τ : ES),
      (rec p q τ).rs = τ.rs ∧ (rec p q τ).renderStack = τ.renderStack)
    (i : Nat) (ip : Bool) (σ : ES) :
    (bubbleInvalidateBody rec i ip σ).rs = σ.rs ∧
    (bubbleInvalidateBody rec i ip σ).renderStack = σ.renderStack := by
  unfold bubbleInvalidateBody
  by_cases hip : ip <;> simp only [hip, if_true, if_false, Bool.false_eq_true] <;> split
  · exact ⟨rfl, rfl⟩
  · split
    · exact ⟨rfl, rfl⟩
    · constructor
      · rw [(hrec _ _ _).1]
        exact rfl
      · rw [(hrec _ _ _).2]
        exact rfl
  · exact ⟨rfl, rfl⟩
  · split
    · exact ⟨rfl, rfl⟩
    · constructor
      · rw [(hrec _ _ _).1]
        exact rfl
      · rw [(hrec _ _ _).2]
        exact rfl

theorem bubbleInvalidate_preserves (fuel : Nat) : ∀ (i : Nat) (ip : Bool) (σ : ES),
    (bubbleInvalidate fuel i ip σ).rs = σ.rs ∧
    (bubbleInvalidate fuel i ip σ).renderStack = σ.renderStack := by
  induction fuel with
  | zero => intro i ip σ; exact ⟨rfl, rfl⟩
  | succ n ih =>
    intro i ip σ
    exact bubbleInvalidateBody_preserves (bubbleInvalidate n) ih i ip σ

theorem foldlBubble_preserves (fuel : Nat) (l : List Nat) : ∀ (σ : ES),
    ((l.foldl (fun σ' i => bubbleInvalidate fuel i false σ') σ).rs = σ.rs) ∧
    ((l.foldl (fun σ' i => bubbleInvalidate fuel i false σ') σ).renderStack = σ.renderStack) := by
  induction l with
  | nil => intro σ; exact ⟨rfl, rfl⟩
  | cons a t ih =>
    intro σ
    rw [List.foldl_cons]
    constructor
    · rw [(ih _).1, (bubbleInvalidate_preserves fuel a false σ).1]
    · rw [(ih _).2, (bubbleInvalidate_preserves fuel a false σ).2]

theorem rerenderInterrupted_preserves (fuel rootId : Nat) (σ : ES) :
    ((rerenderInterrupted fuel rootId σ).rs = σ.rs) ∧
    ((rerenderInterrupted fuel rootId σ).renderStack = σ.renderStack) := by
  unfold rerenderInterrupted
  split
  · exact ⟨rfl, rfl⟩
  · next item heq =>
    constructor
    · show (item.2.foldl (fun σ' i => bubbleInvalidate fuel i false σ') σ).rs = σ.rs
      exact (foldlBubble_preserves fuel item.2 σ).1
    · show (item.2.foldl (fun σ' i => bubbleInvalidate fuel i false σ') σ).renderStack =
        σ.renderStack
      exact (foldlBubble_preserves fuel item.2 σ).2

theorem renderRootFn_preserves (cls : Nat → CompClass) (rc : RunChild) (fuel i : Nat)
    (arg : JSVal) (opts : RenderOpts) (σ : ES) :
    ((renderRootFn cls rc fuel i arg opts σ).2.rs = σ.rs) ∧
    ((renderRootFn cls rc fuel i arg opts σ).2.renderStack = σ.renderStack) := by
  unfold renderRootFn
  constructor
  · show (rerenderInterrupted fuel i σ).rs = σ.rs
    exact (rerenderInterrupted_preserves fuel i σ).1
  · show (rerenderInterrupted fuel i σ).renderStack = σ.renderStack
    exact (rerenderInterrupted_preserves fuel i σ).2

/-- Claim C9: every `renderRoot` call — including a nested one made while
another root's pass is in progress, and regardless of whether `render`
returned normally or threw — restores the engine-internal global render
state (`isRendering`, the interrupt flags and counters, the component
counts, the render start time) and the render stack to their exact values
from before the call: the pre-pass snapshot is reinstalled by the `finally`
restore, so an inner root pass leaves the outer pass's bookkeeping
unchanged. -/
theorem C9_renderRoot_restores_global_state (cls : Nat → CompClass) (fuel i : Nat)
    (arg : JSVal) (opts : RenderOpts) (σ : ES) :
    ((renderRoot cls fuel i arg opts σ).2.rs = σ.rs) ∧
    ((renderRoot cls fuel i arg opts σ).2.renderStack = σ.renderStack) :=
  renderRootFn_preserves cls _ fuel i arg opts σ

/-! ## Move semantics (claim C8) -/

/-- Claim C8: evaluation of the engine at the claim's scenario (C moved
from A to B within one root pass while still mounted under A).  The code
performs *zero* `onUnmount` calls for the moved child — the second pass
appends only a `doRender` of A, a `doRender` of B, a single `onMount` of C
and a cached render of C; the deferred-disappear tick then fires nothing.
The child ends mounted under B.  The claim (and the repository's own
documentation) instead require exactly one `onUnmount` before the
`onMount`. -/
theorem C8_move_zero_unmount_at_failing_input :
    c8pass1.1 = .ok (JSVal.num 2) ∧
    (c8pass1.2.getC 3).renderParent = some 1 ∧
    (c8pass1.2.getC 3).mounted = true ∧
    (c8pass2.2.log.drop c8pass1.2.log.length) =
      [.renderCall 1 (JSVal.num 0), .renderCall 2 (JSVal.num 1), .mount 3,
       .cachedRender 3 (JSVal.num 3)] ∧
    (c8tick.log.drop c8pass2.2.log.length) = [] ∧
    (c8tick.getC 3).renderParent = some 2 ∧
    (c8tick.getC 3).mounted = true ∧
    ((c8tick.getC 2).childrenData.map fun cd => cd.renderedChildren.map Prod.fst) =
      some [3] := by
  decide

theorem C7_amended_setEntry_behaviour_witness :
    ((scanEx.setEntry (JSVal.num 1) 99).entries.map Prod.fst =
        scanEx.entries.map Prod.fst ∧
      (scanEx.setEntry (JSVal.num 1) 99).getEntry (JSVal.num 1) = some 99) ∧
    (((hcEx0.setEntry "a" 1).setEntry "b" 2).setEntry "a" 3).entries =
      HashCache.mapSet
        (match HashCache.firstOther ((hcEx0.setEntry "a" 1).setEntry "b" 2).keysOrder "a" with
         | some o => HashCache.mapDelete ((hcEx0.setEntry "a" 1).setEntry "b" 2).entries o
         | none => ((hcEx0.setEntry "a" 1).setEntry "b" 2).entries) "a" 3 :=
  ⟨C7_amended_setEntry_behaviour.1 JSVal Nat scanEx (JSVal.num 1) 99 0 (by decide),
    C7_amended_setEntry_behaviour.2.2.2 String Nat inferInstance
      ((hcEx0.setEntry "a" 1).setEntry "b" 2) "a" 3 (by decide) (by decide) (by decide)⟩

end Reback
